import Mathlib

/-!
Verification of the trip-analysis / route-deviation engine of the
GsIntegrador fleet-monitoring application (`apps/monitoring/models.py`).

The Python code is shallowly embedded:

* `haversine_distance` is embedded over the real numbers (the idealised
  model of Python floats) so that its algebraic properties can be stated.
* The state machine (`analyze_current_position`), the deviation detector
  (`check_route_deviation`) and the statistics recalculation
  (`update_trip_statistics`) are embedded over the rationals, and are
  parametrised by the geodistance function `d` so that the development
  stays executable; every theorem about them holds for an arbitrary
  geodistance function, in particular for the haversine function the
  source installs there.
* Wall-clock time (`timezone.now()`) is threaded explicitly as a rational
  number of seconds; the several `timezone.now()` calls inside a single
  analysis cycle are collapsed to the one tick instant `now`.
* Django model instances become records; `self.save(...)` becomes the
  returned updated record.
-/

namespace Monitoring

/-! ### Python numeric helpers (over the rationals) -/

/-- Python `int(x)` on a float: truncation toward zero. -/
def pyInt (q : ℚ) : ℤ := if 0 ≤ q then ⌊q⌋ else -⌊-q⌋

/-- Python `x % m` on floats (sign of the divisor; used with `m = 60`). -/
def pyMod (q m : ℚ) : ℚ := q - m * ⌊q / m⌋

/-- Python `round` to an integer: round half to even. -/
def roundHalfEven (q : ℚ) : ℤ :=
  let f := ⌊q⌋
  let r := q - f
  if r < 1 / 2 then f
  else if 1 / 2 < r then f + 1
  else if f % 2 = 0 then f else f + 1

/-- Python `round(x, 2)`. -/
def round2 (q : ℚ) : ℚ := (roundHalfEven (q * 100) : ℚ) / 100

/-- Python `f-string` formatting `{x:.0f}`. -/
def fmt0 (q : ℚ) : String := toString (roundHalfEven q)

/-- Python truthiness of an optional numeric field (`None` and `0` are falsy). -/
def truthy : Option ℚ → Bool
  | none => false
  | some x => if x = 0 then false else true

/-- Python `s or d` for an optional string (`None` and `""` are falsy). -/
def strOr (s : Option String) (d : String) : String :=
  match s with
  | none => d
  | some s => if s = "" then d else s

/-! ### Data model -/

/-- A geodistance function `(lat1, lon1, lat2, lon2) ↦ meters`; the model is
parametrised by it (the source installs `haversine_distance` here). -/
abbrev Dist := ℚ → ℚ → ℚ → ℚ → ℚ

/-- One entry of `MonitoringSystem.alerts_data` as built by `add_alert`
(the per-alert extra keys of `position_data` beyond latitude/longitude are
not inspected by any claim and are reduced to the coordinate pair). -/
structure Alert where
  timestamp : ℚ
  type : String
  severity : String
  message : String
  position : Option (ℚ × ℚ)
deriving Repr, DecidableEq

/-- The slice of `apps/routes/models.Route` read by the deviation detector.
`route_geometry` is the GeoJSON `coordinates` list, `(longitude, latitude)`
pairs; `none` stands for a missing/empty geometry object. -/
structure Route where
  origin_name : Option String
  origin_latitude : Option ℚ
  origin_longitude : Option ℚ
  destination_name : Option String
  destination_latitude : Option ℚ
  destination_longitude : Option ℚ
  route_geometry : Option (List (ℚ × ℚ))
deriving Repr, DecidableEq

/-- The nearest-point payload of a deviation check (geometry branch fills
`segment_index`, the origin/destination fallback fills `name`). -/
structure NearestPoint where
  name : Option String
  latitude : ℚ
  longitude : ℚ
  segment_index : Option ℕ
deriving Repr, DecidableEq

/-- The dict returned by `MonitoringSystem.check_route_deviation`. -/
structure DeviationCheck where
  is_deviated : Bool
  min_distance : Option ℚ
  tolerance : ℤ
  nearest_point : Option NearestPoint
  reason : Option String
  total_route_points : Option ℕ
deriving Repr, DecidableEq

/-- The fields of the `MonitoringSystem` Django model that the analysis
engine reads or writes.  Timestamps are rationals (seconds). -/
structure MonitoringSystem where
  status : String
  route : Option Route
  route_deviation_tolerance_meters : ℤ
  total_distance_traveled : ℚ
  max_speed_recorded : Option ℚ
  average_speed : Option ℚ
  total_stops : ℤ
  total_route_deviations : ℤ
  has_active_deviation : Bool
  last_deviation_detected_at : Option ℚ
  is_currently_stopped : Bool
  stopped_since : Option ℚ
  last_stop_alert_at : Option ℚ
  alerts_data : List Alert
deriving Repr, DecidableEq

/-- The dict returned by the `current_vehicle_position` property (the
`last_update` key is not read by `analyze_current_position`). -/
structure Position where
  latitude : ℚ
  longitude : ℚ
  address : Option String
  speed : Option ℚ
deriving Repr, DecidableEq

/-- One row of `VehiclePositionHistory` as read by `update_trip_statistics`. -/
structure PositionRecord where
  latitude : ℚ
  longitude : ℚ
  speed : Option ℚ
  device_timestamp : ℚ
deriving Repr, DecidableEq

/-- The stats snapshot in the success result of `analyze_current_position`. -/
structure StatsSnapshot where
  has_active_deviation : Bool
  total_deviations : ℤ
  max_speed : ℚ
  is_currently_stopped : Bool
  total_stops : ℤ
deriving Repr, DecidableEq

/-- The result dict of `analyze_current_position`. -/
structure AnalyzeResult where
  success : Bool
  reason : Option String
  deviation_check : Option DeviationCheck
  alerts_generated : List Alert
  stats : Option StatsSnapshot
deriving Repr, DecidableEq

/-! ### Route deviation detector (`check_route_deviation`) -/

/-- The geometry loop of `check_route_deviation`: runs over the remaining
route points (GeoJSON `(lng, lat)` pairs) with the running index and best
`(min_distance, nearest_point)`, updating on a strictly smaller distance
(the source initialises `min_distance = float('inf')`, so the first point
always wins; we start the scan from the first point instead). -/
def scanGeometry (d : Dist) (clat clng : ℚ) :
    List (ℚ × ℚ) → ℕ → ℚ × NearestPoint → ℚ × NearestPoint
  | [], _, best => best
  | p :: rest, i, best =>
      let distance := d clat clng p.2 p.1
      let best' := if distance < best.1 then
          (distance, { name := none, latitude := p.2, longitude := p.1,
                       segment_index := some i }) else best
      scanGeometry d clat clng rest (i + 1) best'

/-- The waypoints the origin/destination fallback checks: Python truthiness
on each coordinate (so a missing or zero coordinate drops the endpoint). -/
def fallbackWaypoints (r : Route) : List (String × ℚ × ℚ) :=
  (if truthy r.origin_latitude && truthy r.origin_longitude then
     [(strOr r.origin_name "Origem",
       r.origin_latitude.getD 0, r.origin_longitude.getD 0)] else []) ++
  (if truthy r.destination_latitude && truthy r.destination_longitude then
     [(strOr r.destination_name "Destino",
       r.destination_latitude.getD 0, r.destination_longitude.getD 0)] else [])

/-- The fallback loop of `check_route_deviation` over `(name, lat, lng)`
waypoints. -/
def scanWaypoints (d : Dist) (clat clng : ℚ) :
    List (String × ℚ × ℚ) → ℚ × NearestPoint → ℚ × NearestPoint
  | [], best => best
  | wp :: rest, best =>
      let distance := d clat clng wp.2.1 wp.2.2
      let best' := if distance < best.1 then
          (distance, { name := some wp.1, latitude := wp.2.1,
                       longitude := wp.2.2, segment_index := none }) else best
      scanWaypoints d clat clng rest best'

/-- The method `MonitoringSystem.check_route_deviation(current_lat, current_lng)`,
reading `self.route` and `self.route_deviation_tolerance_meters`. -/
def check_route_deviation (d : Dist) (route : Option Route) (tol : ℤ)
    (clat clng : ℚ) : DeviationCheck :=
  match route with
  | none =>
      { is_deviated := false, min_distance := none, tolerance := tol,
        nearest_point := none, reason := some "Nenhuma rota definida",
        total_route_points := none }
  | some r =>
    match r.route_geometry with
    | some (c :: cs) =>
        let best := scanGeometry d clat clng cs 1
          (d clat clng c.2 c.1,
           { name := none, latitude := c.2, longitude := c.1,
             segment_index := some 0 })
        { is_deviated := decide ((tol : ℚ) < best.1),
          min_distance := some (round2 best.1), tolerance := tol,
          nearest_point := some best.2, reason := none,
          total_route_points := some (c :: cs).length }
    | _ =>
        match fallbackWaypoints r with
        | [] =>
            { is_deviated := false, min_distance := none, tolerance := tol,
              nearest_point := none,
              reason := some "Rota sem coordenadas definidas",
              total_route_points := none }
        | w :: ws =>
            let best := scanWaypoints d clat clng ws
              (d clat clng w.2.1 w.2.2,
               { name := some w.1, latitude := w.2.1, longitude := w.2.2,
                 segment_index := none })
            { is_deviated := decide ((tol : ℚ) < best.1),
              min_distance := some (round2 best.1), tolerance := tol,
              nearest_point := some best.2, reason := none,
              total_route_points := none }

/-! ### Alert construction (`add_alert`) and the message strings -/

/-- The method `MonitoringSystem.add_alert`: builds the alert dict, appends it to
`alerts_data` and persists; returns the alert and the updated state. -/
def add_alert (now : ℚ) (sm : MonitoringSystem) (alert_type severity message : String)
    (position_data : Option (ℚ × ℚ)) : Alert × MonitoringSystem :=
  let alert : Alert :=
    { timestamp := now, type := alert_type, severity := severity,
      message := message, position := position_data }
  (alert, { sm with alerts_data := sm.alerts_data ++ [alert] })

/-- Message of the first `route_deviation` alert of an episode. -/
def firstDeviationMessage (dc : DeviationCheck) : String :=
  "⚠️ Veículo desviou da rota! Distância: " ++ fmt0 (dc.min_distance.getD 0) ++
    "m (tolerância: " ++ toString dc.tolerance ++ "m)"

/-- Message of a rate-limited repeat `route_deviation` alert. -/
def continuedDeviationMessage (minutes : ℚ) (dc : DeviationCheck) : String :=
  "⚠️ Veículo CONTINUA fora da rota há " ++ toString (pyInt minutes) ++
    " minutos! Distância: " ++ fmt0 (dc.min_distance.getD 0) ++
    "m (tolerância: " ++ toString dc.tolerance ++ "m)"

/-- Message of the repeat `route_deviation` alert emitted when a deviation
is active but `last_deviation_detected_at` is missing. -/
def activeNoTimestampMessage (dc : DeviationCheck) : String :=
  "⚠️ Veículo continua fora da rota. Distância: " ++ fmt0 (dc.min_distance.getD 0) ++
    "m (tolerância: " ++ toString dc.tolerance ++ "m)"

/-- The elapsed-time suffix of the `route_back` message: minutes below one
hour, otherwise hours and minutes. -/
def timeOffRouteStr (duration_minutes : ℚ) : String :=
  if duration_minutes < 60 then
    " (ficou fora por " ++ toString (pyInt duration_minutes) ++ " minutos)"
  else
    " (ficou fora por " ++ toString (pyInt (duration_minutes / 60)) ++ "h" ++
      toString (pyInt (pyMod duration_minutes 60)) ++ "min)"

/-- The elapsed-time suffix of the `movement_resumed` message. -/
def durationStoppedStr (minutes : ℚ) : String :=
  if minutes < 60 then
    " (ficou parado por " ++ toString (pyInt minutes) ++ " minutos)"
  else
    " (ficou parado por " ++ toString (pyInt (minutes / 60)) ++ "h" ++
      toString (pyInt (pyMod minutes 60)) ++ "min)"

/-- Message of a `prolonged_stop` alert.  The position dict always carries
an `address` key, so Python's `position.get('address', 'Desconhecido')`
returns its value; a `None` value renders as `"None"` in the f-string. -/
def prolongedStopMessage (minutes_stopped : ℚ) (addr : Option String) : String :=
  "🛑 Veículo parado há " ++ toString (pyInt minutes_stopped) ++
    " minutos! Local: " ++ (match addr with | some a => a | none => "None")

/-! ### The per-tick state machine (`analyze_current_position`) -/

/-- Section 1 of `analyze_current_position`: the route-deviation sub-machine. -/
def deviationStep (now : ℚ) (sm : MonitoringSystem) (lat lng : ℚ)
    (dc : DeviationCheck) : List Alert × MonitoringSystem :=
  if dc.is_deviated then
    let sa : Bool × String :=
      if !sm.has_active_deviation then
        (true, firstDeviationMessage dc)
      else
        match sm.last_deviation_detected_at with
        | some t =>
            let minutes_since_last_alert := (now - t) / 60
            if minutes_since_last_alert ≥ 2 then
              (true, continuedDeviationMessage minutes_since_last_alert dc)
            else (false, "")
        | none => (true, activeNoTimestampMessage dc)
    if sa.1 then
      let ar := add_alert now sm "route_deviation" "warning" sa.2 (some (lat, lng))
      ([ar.1],
       { ar.2 with
         total_route_deviations :=
           if !ar.2.has_active_deviation then ar.2.total_route_deviations + 1
           else ar.2.total_route_deviations,
         has_active_deviation := true,
         last_deviation_detected_at := some now })
    else ([], sm)
  else
    if sm.has_active_deviation then
      let time_off_route :=
        match sm.last_deviation_detected_at with
        | some t => timeOffRouteStr ((now - t) / 60)
        | none => ""
      let ar := add_alert now sm "route_back" "info"
        ("✅ Veículo retornou à rota planejada" ++ time_off_route)
        (some (lat, lng))
      ([ar.1], { ar.2 with has_active_deviation := false })
    else ([], sm)

/-- Section 2 of `analyze_current_position`: the max-speed update (Python
truthiness makes a `None` or `0` recorded maximum always lose). -/
def maxSpeedStep (sm : MonitoringSystem) (speed : ℚ) : MonitoringSystem :=
  if 0 < speed then
    if !truthy sm.max_speed_recorded || sm.max_speed_recorded.getD 0 < speed then
      { sm with max_speed_recorded := some speed }
    else sm
  else sm

/-- Section 3 of `analyze_current_position`: the prolonged-stop sub-machine. -/
def stopStep (now : ℚ) (sm : MonitoringSystem) (lat lng : ℚ)
    (addr : Option String) (speed : ℚ) : List Alert × MonitoringSystem :=
  if speed = 0 then
    if !sm.is_currently_stopped then
      ([], { sm with is_currently_stopped := true, stopped_since := some now })
    else
      match sm.stopped_since with
      | none => ([], sm)
      | some ts =>
          let minutes_stopped := (now - ts) / 60
          if minutes_stopped ≥ 5 then
            let should_alert_stop :=
              match sm.last_stop_alert_at with
              | none => true
              | some la => decide ((now - la) / 60 ≥ 5)
            if should_alert_stop then
              let ar := add_alert now sm "prolonged_stop" "warning"
                (prolongedStopMessage minutes_stopped addr) (some (lat, lng))
              let first_alert_of_this_stop := ar.2.last_stop_alert_at.isNone
              ([ar.1],
               { ar.2 with
                 total_stops :=
                   if first_alert_of_this_stop then ar.2.total_stops + 1
                   else ar.2.total_stops,
                 last_stop_alert_at := some now })
            else ([], sm)
          else ([], sm)
  else
    if sm.is_currently_stopped then
      let duration_stopped :=
        match sm.stopped_since with
        | some ts => durationStoppedStr ((now - ts) / 60)
        | none => ""
      let ar := add_alert now sm "movement_resumed" "info"
        ("🚗 Veículo voltou a se mover" ++ duration_stopped) (some (lat, lng))
      ([ar.1],
       { ar.2 with is_currently_stopped := false, stopped_since := none,
                   last_stop_alert_at := none })
    else ([], sm)

/-- The method `MonitoringSystem.analyze_current_position`.  Here `now` is the tick instant,
`position` the value of the `current_vehicle_position` property. -/
def analyze_current_position (d : Dist) (now : ℚ) (sm : MonitoringSystem)
    (position : Option Position) : AnalyzeResult × MonitoringSystem :=
  if sm.status ≠ "EM_ANDAMENTO" then
    ({ success := false, reason := some "Viagem não está em andamento",
       deviation_check := none, alerts_generated := [], stats := none }, sm)
  else
    match position with
    | none =>
        ({ success := false, reason := some "Nenhuma posição disponível",
           deviation_check := none, alerts_generated := [], stats := none }, sm)
    | some pos =>
        let lat := pos.latitude
        let lng := pos.longitude
        let speed := pos.speed.getD 0
        let dc := check_route_deviation d sm.route
          sm.route_deviation_tolerance_meters lat lng
        let a1 := deviationStep now sm lat lng dc
        let sm2 := maxSpeedStep a1.2 speed
        let a2 := stopStep now sm2 lat lng pos.address speed
        ({ success := true, reason := none, deviation_check := some dc,
           alerts_generated := a1.1 ++ a2.1,
           stats := some
             { has_active_deviation := a2.2.has_active_deviation,
               total_deviations := a2.2.total_route_deviations,
               max_speed :=
                 if truthy a2.2.max_speed_recorded then
                   a2.2.max_speed_recorded.getD 0 else 0,
               is_currently_stopped := a2.2.is_currently_stopped,
               total_stops := a2.2.total_stops } }, a2.2)

/-- Feeding a list of `(tick instant, position)` samples through
`analyze_current_position`, accumulating the generated alerts. -/
def feedPositions (d : Dist) :
    MonitoringSystem × List Alert → List (ℚ × Position) →
    MonitoringSystem × List Alert
  | acc, [] => acc
  | (sm, alerts), (t, p) :: rest =>
      let r := analyze_current_position d t sm (some p)
      feedPositions d (r.2, alerts ++ r.1.alerts_generated) rest

/-! ### Trip statistics recalculation (`update_trip_statistics`) -/

/-- The accumulation loop `for i in range(1, len(positions))` of
`update_trip_statistics`: sums consecutive-pair distances, collects the
non-null speeds of the *current* record of each pair, and counts the
current records whose speed is exactly 0. -/
def statsLoop (d : Dist) :
    PositionRecord → List PositionRecord → ℚ × List ℚ × ℤ → ℚ × List ℚ × ℤ
  | _, [], acc => acc
  | prev, curr :: rest, (total, speeds, stops) =>
      let distance := d prev.latitude prev.longitude curr.latitude curr.longitude
      let acc' :=
        match curr.speed with
        | some s =>
            (total + distance, speeds ++ [s],
             if s = 0 then stops + 1 else stops)
        | none => (total + distance, speeds, stops)
      statsLoop d curr rest acc'

/-- The method `MonitoringSystem.update_trip_statistics`, applied to the trip's
position history ordered by `device_timestamp` ascending. -/
def update_trip_statistics (d : Dist) (positions : List PositionRecord)
    (sm : MonitoringSystem) : MonitoringSystem :=
  if positions.length < 2 then sm
  else
    match positions with
    | [] => sm
    | p0 :: rest =>
        let acc := statsLoop d p0 rest (0, [], 0)
        let sm1 := { sm with total_distance_traveled := acc.1 / 1000 }
        let sm2 :=
          match acc.2.1 with
          | [] => sm1
          | speeds@(_ :: _) =>
              { sm1 with average_speed := some (speeds.sum / (speeds.length : ℚ)) }
        { sm2 with total_stops := acc.2.2 }

/-! ### Concrete instances used by witnesses and counterexamples -/

/-- A geodistance stub that is constantly zero (the state-machine theorems
hold for every geodistance function, so witnesses may pick simple ones). -/
def dZero : Dist := fun _ _ _ _ => 0

/-- A geodistance stub that is constantly 500 m. -/
def dFar : Dist := fun _ _ _ _ => 500

/-- A freshly started trip state, used as a concrete base by witnesses. -/
def smBase : MonitoringSystem :=
  { status := "EM_ANDAMENTO",
    route := some
      { origin_name := some "A", origin_latitude := some 1,
        origin_longitude := some 1, destination_name := some "B",
        destination_latitude := some 2, destination_longitude := some 2,
        route_geometry := some [(0, 0)] },
    route_deviation_tolerance_meters := 200,
    total_distance_traveled := 0, max_speed_recorded := none,
    average_speed := none, total_stops := 0, total_route_deviations := 0,
    has_active_deviation := false, last_deviation_detected_at := none,
    is_currently_stopped := false, stopped_since := none,
    last_stop_alert_at := none, alerts_data := [] }

/-- A concrete position sample at the route origin. -/
def posStopped : Position :=
  { latitude := 0, longitude := 0, address := some "Av. Paulista", speed := some 0 }

/-- A concrete moving position sample. -/
def posMoving : Position :=
  { latitude := 0, longitude := 0, address := some "Av. Paulista", speed := some 50 }

/-! ### C5: the deviation decision. -/

/-- Restated from the spec for C5: the minimum geodistance from the current
position to the route's vertices (or, in the fallback, to the available
origin/destination endpoints); `none` when the route has no coordinates at
all.  To be compared with `check_route_deviation`. -/
def specMinDistance (d : Dist) (route : Option Route) (clat clng : ℚ) :
    Option ℚ :=
  match route with
  | none => none
  | some r =>
    match r.route_geometry with
    | some (c :: cs) =>
        some ((cs.map fun p => d clat clng p.2 p.1).foldl min
          (d clat clng c.2 c.1))
    | _ =>
        match fallbackWaypoints r with
        | [] => none
        | w :: ws =>
            some ((ws.map fun wp => d clat clng wp.2.1 wp.2.2).foldl min
              (d clat clng w.2.1 w.2.2))

/-- Counterexample input for C6/C7: two records, the first with speed 100
(and the only zero-speed sample), the second with speed 0. -/
def psC6 : List PositionRecord :=
  [{ latitude := 0, longitude := 0, speed := some 100, device_timestamp := 0 },
   { latitude := 0, longitude := 0, speed := some 0, device_timestamp := 60 }]

/-- Counterexample input for C7: the first record is the only stopped one. -/
def psC7 : List PositionRecord :=
  [{ latitude := 0, longitude := 0, speed := some 0, device_timestamp := 0 },
   { latitude := 0, longitude := 0, speed := some 5, device_timestamp := 60 }]

/-! ### Decomposition of one analysis cycle -/

/-- The deviation check `analyze_current_position` performs for a sample. -/
def devCheck (d : Dist) (sm : MonitoringSystem) (p : Position) : DeviationCheck :=
  check_route_deviation d sm.route sm.route_deviation_tolerance_meters
    p.latitude p.longitude

/-- The alerts of a given type in a list. -/
def alertsOfType (l : List Alert) (ty : String) : List Alert :=
  l.filter fun a => a.type = ty

/-- Degrees to radians, as `math.radians`. -/
noncomputable def radians (x : ℝ) : ℝ := x * (Real.pi / 180)

/-- Two-argument arctangent, as `math.atan2 y x`. -/
noncomputable def atan2 (y x : ℝ) : ℝ :=
  if 0 < x then Real.arctan (y / x)
  else if x < 0 ∧ 0 ≤ y then Real.arctan (y / x) + Real.pi
  else if x < 0 ∧ y < 0 then Real.arctan (y / x) - Real.pi
  else if x = 0 ∧ 0 < y then Real.pi / 2
  else if x = 0 ∧ y < 0 then -(Real.pi / 2)
  else 0

/-- The function `haversine_distance(lat1, lon1, lat2, lon2)` from the module `apps/monitoring/models.py`:
great-circle distance in meters with Earth radius 6 371 000 m. -/
noncomputable def haversine_distance (lat1 lon1 lat2 lon2 : ℝ) : ℝ :=
  let R : ℝ := 6371000
  let lat1_rad := radians lat1
  let lat2_rad := radians lat2
  let delta_lat := radians (lat2 - lat1)
  let delta_lon := radians (lon2 - lon1)
  let a := Real.sin (delta_lat / 2) ^ 2 +
    Real.cos lat1_rad * Real.cos lat2_rad * Real.sin (delta_lon / 2) ^ 2
  let c := 2 * atan2 (Real.sqrt a) (Real.sqrt (1 - a))
  R * c

/-- C9: the haversine distance function is symmetric in its two points, and
returns exactly 0 when both points are identical. -/
theorem C9_haversine_symm_zero (lat1 lon1 lat2 lon2 : ℝ) :
    haversine_distance lat1 lon1 lat2 lon2 = haversine_distance lat2 lon2 lat1 lon1 ∧
    haversine_distance lat1 lon1 lat1 lon1 = 0 := by
  constructor
  · simp only [haversine_distance]
    have h1 : radians (lat1 - lat2) / 2 = -(radians (lat2 - lat1) / 2) := by
      simp only [radians]; ring
    have h2 : radians (lon1 - lon2) / 2 = -(radians (lon2 - lon1) / 2) := by
      simp only [radians]; ring
    have ha : Real.sin (radians (lat2 - lat1) / 2) ^ 2 +
        Real.cos (radians lat1) * Real.cos (radians lat2) *
          Real.sin (radians (lon2 - lon1) / 2) ^ 2 =
        Real.sin (radians (lat1 - lat2) / 2) ^ 2 +
        Real.cos (radians lat2) * Real.cos (radians lat1) *
          Real.sin (radians (lon1 - lon2) / 2) ^ 2 := by
      rw [h1, h2, Real.sin_neg, Real.sin_neg]; ring
    rw [ha]
  · simp only [haversine_distance, sub_self, radians, zero_mul, zero_div,
      Real.sin_zero]
    norm_num [atan2, Real.arctan_zero]

/-! ### The vertex scans compute the minimum distance -/

lemma ite_lt_eq_min (x b : ℚ) : (if x < b then x else b) = min b x := by
  rcases le_or_lt b x with h | h
  · simp [min_def, h, not_lt.mpr h]
  · simp [min_def, h, not_le.mpr h]

lemma scanGeometry_fst (d : Dist) (clat clng : ℚ) :
    ∀ (l : List (ℚ × ℚ)) (i : ℕ) (best : ℚ × NearestPoint),
      (scanGeometry d clat clng l i best).1 =
        (l.map fun p => d clat clng p.2 p.1).foldl min best.1
  | [], _, _ => rfl
  | p :: rest, i, best => by
      rw [scanGeometry, List.map_cons, List.foldl_cons]
      rw [scanGeometry_fst d clat clng rest]
      congr 1
      split
      · next h => rw [← ite_lt_eq_min (d clat clng p.2 p.1) best.1, if_pos h]
      · next h => rw [← ite_lt_eq_min (d clat clng p.2 p.1) best.1, if_neg h]

lemma scanWaypoints_fst (d : Dist) (clat clng : ℚ) :
    ∀ (l : List (String × ℚ × ℚ)) (best : ℚ × NearestPoint),
      (scanWaypoints d clat clng l best).1 =
        (l.map fun wp => d clat clng wp.2.1 wp.2.2).foldl min best.1
  | [], _ => rfl
  | wp :: rest, best => by
      rw [scanWaypoints, List.map_cons, List.foldl_cons]
      rw [scanWaypoints_fst d clat clng rest]
      congr 1
      split
      · next h => rw [← ite_lt_eq_min (d clat clng wp.2.1 wp.2.2) best.1, if_pos h]
      · next h => rw [← ite_lt_eq_min (d clat clng wp.2.1 wp.2.2) best.1, if_neg h]

/-- C5: `check_route_deviation` reports a deviation exactly when the minimum
distance to the route's vertices (or the origin/destination fallback
endpoints) strictly exceeds the tolerance; a minimum exactly equal to the
tolerance is not a deviation; and a route with no coordinates at all yields
`is_deviated = false` together with a reason flag. -/
theorem C5_deviation_threshold (d : Dist) (route : Option Route) (tol : ℤ)
    (clat clng : ℚ) :
    ((check_route_deviation d route tol clat clng).is_deviated = true ↔
      ∃ m, specMinDistance d route clat clng = some m ∧ (tol : ℚ) < m) ∧
    (specMinDistance d route clat clng = some (tol : ℚ) →
      (check_route_deviation d route tol clat clng).is_deviated = false) ∧
    (specMinDistance d route clat clng = none →
      (check_route_deviation d route tol clat clng).is_deviated = false ∧
      (check_route_deviation d route tol clat clng).reason.isSome = true) := by
  have main : (check_route_deviation d route tol clat clng).is_deviated = true ↔
      ∃ m, specMinDistance d route clat clng = some m ∧ (tol : ℚ) < m := by
    match route with
    | none => simp [check_route_deviation, specMinDistance]
    | some r =>
      match hg : r.route_geometry with
      | some (c :: cs) =>
          simp only [check_route_deviation, specMinDistance, hg,
            scanGeometry_fst, Option.some.injEq, decide_eq_true_eq]
          constructor
          · intro h; exact ⟨_, rfl, h⟩
          · rintro ⟨m, rfl, h⟩; exact h
      | some [] =>
          match hw : fallbackWaypoints r with
          | [] => simp [check_route_deviation, specMinDistance, hg, hw]
          | w :: ws =>
              simp only [check_route_deviation, specMinDistance, hg, hw,
                scanWaypoints_fst, Option.some.injEq, decide_eq_true_eq]
              constructor
              · intro h; exact ⟨_, rfl, h⟩
              · rintro ⟨m, rfl, h⟩; exact h
      | none =>
          match hw : fallbackWaypoints r with
          | [] => simp [check_route_deviation, specMinDistance, hg, hw]
          | w :: ws =>
              simp only [check_route_deviation, specMinDistance, hg, hw,
                scanWaypoints_fst, Option.some.injEq, decide_eq_true_eq]
              constructor
              · intro h; exact ⟨_, rfl, h⟩
              · rintro ⟨m, rfl, h⟩; exact h
  refine ⟨main, ?_, ?_⟩
  · intro heq
    by_contra hdev
    rw [Bool.not_eq_false, main, heq] at hdev
    obtain ⟨m, hm, hlt⟩ := hdev
    rw [Option.some.injEq] at hm
    exact absurd hlt (by rw [← hm]; exact lt_irrefl _)
  · intro hnone
    constructor
    · by_contra hdev
      rw [Bool.not_eq_false, main, hnone] at hdev
      obtain ⟨m, hm, _⟩ := hdev
      exact Option.noConfusion hm
    · match route with
      | none => simp [check_route_deviation]
      | some r =>
        match hg : r.route_geometry with
        | some (c :: cs) => simp [specMinDistance, hg] at hnone
        | some [] =>
            match hw : fallbackWaypoints r with
            | [] => simp [check_route_deviation, hg, hw]
            | w :: ws => simp [specMinDistance, hg, hw] at hnone
        | none =>
            match hw : fallbackWaypoints r with
            | [] => simp [check_route_deviation, hg, hw]
            | w :: ws => simp [specMinDistance, hg, hw] at hnone

/-- Witness for C5 at a concrete input: a route whose nearest vertex is at
exactly the tolerance distance is not flagged as deviated. -/
theorem C5_deviation_threshold_witness :
    (check_route_deviation (fun _ _ _ _ => 200) smBase.route 200 0 0).is_deviated
      = false := by
  have h := (C5_deviation_threshold (fun _ _ _ _ => 200) smBase.route 200 0 0).2.1
  exact h (by decide)

/-! ### C4: the no-op failure paths -/

/-- C4: on a trip that is not in progress, or with no resolvable current
position, `analyze_current_position` returns a failure result carrying a
reason string, generates no alert, and leaves the trip state completely
unchanged; calling it again on the returned state gives the same outcome. -/
theorem C4_noop_failure (d : Dist) (now now2 : ℚ) (sm : MonitoringSystem)
    (pos : Option Position)
    (h : sm.status ≠ "EM_ANDAMENTO" ∨ pos = none) :
    (analyze_current_position d now sm pos).2 = sm ∧
    (analyze_current_position d now sm pos).1.success = false ∧
    (analyze_current_position d now sm pos).1.reason.isSome = true ∧
    (analyze_current_position d now sm pos).1.alerts_generated = [] ∧
    analyze_current_position d now2 (analyze_current_position d now sm pos).2 pos
      = analyze_current_position d now2 sm pos := by
  by_cases hst : sm.status = "EM_ANDAMENTO"
  · have hpos : pos = none := by
      rcases h with h | h
      · exact absurd hst h
      · exact h
    subst hpos
    simp [analyze_current_position, hst]
  · simp [analyze_current_position, hst]

/-- Witness for C4 at a concrete input: a completed trip. -/
theorem C4_noop_failure_witness :
    (analyze_current_position dZero 0 { smBase with status := "CONCLUIDO" }
        (some posMoving)).2 = { smBase with status := "CONCLUIDO" } ∧
    (analyze_current_position dZero 0 { smBase with status := "CONCLUIDO" }
        (some posMoving)).1.success = false := by
  have h := C4_noop_failure dZero 0 60 { smBase with status := "CONCLUIDO" }
    (some posMoving) (Or.inl (by decide))
  exact ⟨h.1, h.2.1⟩

/-! ### C6 and C7: the statistics recalculation -/

lemma statsLoop_speeds (d : Dist) :
    ∀ (rest : List PositionRecord) (prev : PositionRecord)
      (total : ℚ) (speeds : List ℚ) (stops : ℤ),
      (statsLoop d prev rest (total, speeds, stops)).2.1 =
        speeds ++ rest.filterMap (fun r => r.speed)
  | [], _, _, _, _ => by simp [statsLoop]
  | curr :: rest, prev, total, speeds, stops => by
      rw [statsLoop]
      match hs : curr.speed with
      | some s =>
          simp only [hs, List.filterMap_cons, statsLoop_speeds d rest]
          simp
      | none =>
          simp only [hs, List.filterMap_cons, statsLoop_speeds d rest]

lemma statsLoop_stops (d : Dist) :
    ∀ (rest : List PositionRecord) (prev : PositionRecord)
      (total : ℚ) (speeds : List ℚ) (stops : ℤ),
      (statsLoop d prev rest (total, speeds, stops)).2.2 =
        stops + ((rest.filter (fun r => r.speed = some 0)).length : ℤ)
  | [], _, _, _, _ => by simp [statsLoop]
  | curr :: rest, prev, total, speeds, stops => by
      rw [statsLoop]
      match hs : curr.speed with
      | some s =>
          by_cases hz : s = 0
          · subst hz
            simp only [hs, if_pos rfl, statsLoop_stops d rest, List.filter_cons]
            simp only [decide_eq_true_eq, Option.some.injEq, if_true,
              List.length_cons, if_pos rfl]
            push_cast
            ring
          · simp only [hs, if_neg hz, statsLoop_stops d rest, List.filter_cons]
            simp [hz]
      | none =>
          simp only [hs, statsLoop_stops d rest, List.filter_cons]
          simp

/-- C6 (amended): for a history of at least 2 records, the recalculation
sets `average_speed` to the arithmetic mean of the non-null speeds of all
records *except the first* (the loop starts at index 1 and only reads the
second element of each consecutive pair); when every one of those speeds is
null, `average_speed` is left unchanged. -/
theorem C6_average_excludes_first (d : Dist) (positions : List PositionRecord)
    (sm : MonitoringSystem) (h : 2 ≤ positions.length) :
    (update_trip_statistics d positions sm).average_speed =
      match (positions.drop 1).filterMap (fun r => r.speed) with
      | [] => sm.average_speed
      | speeds@(_ :: _) => some (speeds.sum / (speeds.length : ℚ)) := by
  match positions with
  | [] => simp at h
  | p0 :: rest =>
      rw [update_trip_statistics]
      rw [if_neg (by omega)]
      simp only [List.drop_succ_cons, List.drop_zero]
      have hs := statsLoop_speeds d rest p0 0 [] 0
      match hsp : (statsLoop d p0 rest (0, [], 0)).2.1 with
      | [] =>
          rw [hsp] at hs
          simp only [List.nil_append] at hs
          rw [← hs]
      | q :: qs =>
          rw [hsp] at hs
          simp only [List.nil_append] at hs
          rw [← hs]

/-- Counterexample for C6: on `psC6` the mean over *all* non-null speeds
(first record included, as the claim states) is 50, but the code computes
`average_speed = 0` — the first record's speed is never collected. -/
theorem C6_counterexample :
    2 ≤ psC6.length ∧
    (psC6.filterMap (fun r => r.speed)).sum /
      (((psC6.filterMap (fun r => r.speed)).length : ℚ)) = 50 ∧
    (update_trip_statistics dZero psC6 smBase).average_speed = some 0 ∧
    (update_trip_statistics dZero psC6 smBase).average_speed ≠ some 50 := by
  have hcode : (update_trip_statistics dZero psC6 smBase).average_speed = some 0 := by
    norm_num [update_trip_statistics, statsLoop, psC6, dZero, smBase]
  refine ⟨by decide, ?_, hcode, ?_⟩
  · simp only [psC6, List.filterMap_cons, List.filterMap_nil]
    norm_num
  · rw [hcode]
    norm_num

/-- Witness for C6 (amended) at a concrete input. -/
theorem C6_average_excludes_first_witness :
    (update_trip_statistics dZero psC6 smBase).average_speed = some 0 := by
  have h := C6_average_excludes_first dZero psC6 smBase (by decide)
  rw [h]
  simp only [psC6, List.drop_succ_cons, List.drop_zero, List.filterMap_cons,
    List.filterMap_nil]
  norm_num

/-- C7 (amended): for a history of at least 2 records, the recalculation
sets `total_stops` to the number of records *except the first* whose
recorded speed is (non-null and) exactly 0. -/
theorem C7_stops_excludes_first (d : Dist) (positions : List PositionRecord)
    (sm : MonitoringSystem) (h : 2 ≤ positions.length) :
    (update_trip_statistics d positions sm).total_stops =
      (((positions.drop 1).filter (fun r => r.speed = some 0)).length : ℤ) := by
  match positions with
  | [] => simp at h
  | p0 :: rest =>
      rw [update_trip_statistics]
      rw [if_neg (by omega)]
      simp only [List.drop_succ_cons, List.drop_zero]
      have hs := statsLoop_stops d rest p0 0 [] 0
      simp only [zero_add] at hs
      match hsp : (statsLoop d p0 rest (0, [], 0)).2.1 with
      | [] => simp only [hsp, hs]
      | q :: qs => simp only [hsp, hs]

/-- Counterexample for C7: on `psC7` the count over *all* samples with
speed exactly 0 (first record included, as the claim states) is 1, but the
code computes `total_stops = 0` — the first record is never examined. -/
theorem C7_counterexample :
    2 ≤ psC7.length ∧
    (psC7.filter (fun r => r.speed = some 0)).length = 1 ∧
    (update_trip_statistics dZero psC7 smBase).total_stops = 0 := by
  refine ⟨by decide, by decide, by decide⟩

/-- Witness for C7 (amended) at a concrete input. -/
theorem C7_stops_excludes_first_witness :
    (update_trip_statistics dZero psC7 smBase).total_stops = 0 := by
  have h := C7_stops_excludes_first dZero psC7 smBase (by decide)
  rw [h]
  decide

lemma alertsOfType_append (l1 l2 : List Alert) (ty : String) :
    alertsOfType (l1 ++ l2) ty = alertsOfType l1 ty ++ alertsOfType l2 ty := by
  simp [alertsOfType]

lemma analyze_some_eq (d : Dist) (now : ℚ) (sm : MonitoringSystem) (p : Position)
    (hst : sm.status = "EM_ANDAMENTO") :
    (analyze_current_position d now sm (some p)).2 =
      (stopStep now
        (maxSpeedStep (deviationStep now sm p.latitude p.longitude (devCheck d sm p)).2
          (p.speed.getD 0))
        p.latitude p.longitude p.address (p.speed.getD 0)).2 ∧
    (analyze_current_position d now sm (some p)).1.alerts_generated =
      (deviationStep now sm p.latitude p.longitude (devCheck d sm p)).1 ++
      (stopStep now
        (maxSpeedStep (deviationStep now sm p.latitude p.longitude (devCheck d sm p)).2
          (p.speed.getD 0))
        p.latitude p.longitude p.address (p.speed.getD 0)).1 := by
  rw [analyze_current_position, if_neg (by simp [hst])]
  exact ⟨rfl, rfl⟩

/-! ### Field preservation across the three sections -/

lemma deviationStep_preserves (now : ℚ) (sm : MonitoringSystem) (lat lng : ℚ)
    (dc : DeviationCheck) :
    (deviationStep now sm lat lng dc).2.status = sm.status ∧
    (deviationStep now sm lat lng dc).2.route = sm.route ∧
    (deviationStep now sm lat lng dc).2.route_deviation_tolerance_meters =
      sm.route_deviation_tolerance_meters ∧
    (deviationStep now sm lat lng dc).2.is_currently_stopped =
      sm.is_currently_stopped ∧
    (deviationStep now sm lat lng dc).2.stopped_since = sm.stopped_since ∧
    (deviationStep now sm lat lng dc).2.last_stop_alert_at = sm.last_stop_alert_at ∧
    (deviationStep now sm lat lng dc).2.total_stops = sm.total_stops ∧
    (deviationStep now sm lat lng dc).2.max_speed_recorded = sm.max_speed_recorded := by
  unfold deviationStep add_alert
  repeat' split <;> try (first | rfl | simp)

lemma maxSpeedStep_preserves (sm : MonitoringSystem) (speed : ℚ) :
    (maxSpeedStep sm speed).status = sm.status ∧
    (maxSpeedStep sm speed).route = sm.route ∧
    (maxSpeedStep sm speed).route_deviation_tolerance_meters =
      sm.route_deviation_tolerance_meters ∧
    (maxSpeedStep sm speed).has_active_deviation = sm.has_active_deviation ∧
    (maxSpeedStep sm speed).last_deviation_detected_at =
      sm.last_deviation_detected_at ∧
    (maxSpeedStep sm speed).total_route_deviations = sm.total_route_deviations ∧
    (maxSpeedStep sm speed).is_currently_stopped = sm.is_currently_stopped ∧
    (maxSpeedStep sm speed).stopped_since = sm.stopped_since ∧
    (maxSpeedStep sm speed).last_stop_alert_at = sm.last_stop_alert_at ∧
    (maxSpeedStep sm speed).total_stops = sm.total_stops := by
  unfold maxSpeedStep
  repeat' split <;> try (first | rfl | simp)

lemma stopStep_preserves (now : ℚ) (sm : MonitoringSystem) (lat lng : ℚ)
    (addr : Option String) (speed : ℚ) :
    (stopStep now sm lat lng addr speed).2.status = sm.status ∧
    (stopStep now sm lat lng addr speed).2.route = sm.route ∧
    (stopStep now sm lat lng addr speed).2.route_deviation_tolerance_meters =
      sm.route_deviation_tolerance_meters ∧
    (stopStep now sm lat lng addr speed).2.has_active_deviation =
      sm.has_active_deviation ∧
    (stopStep now sm lat lng addr speed).2.last_deviation_detected_at =
      sm.last_deviation_detected_at ∧
    (stopStep now sm lat lng addr speed).2.total_route_deviations =
      sm.total_route_deviations := by
  unfold stopStep add_alert
  repeat' split <;> try (first | rfl | simp)

lemma deviationStep_alertsOfType (now : ℚ) (sm : MonitoringSystem) (lat lng : ℚ)
    (dc : DeviationCheck) (ty : String)
    (h1 : "route_deviation" ≠ ty) (h2 : "route_back" ≠ ty) :
    alertsOfType (deviationStep now sm lat lng dc).1 ty = [] := by
  unfold deviationStep add_alert alertsOfType
  repeat' split <;> try simp [h1, h2]

lemma stopStep_alertsOfType (now : ℚ) (sm : MonitoringSystem) (lat lng : ℚ)
    (addr : Option String) (speed : ℚ) (ty : String)
    (h1 : "prolonged_stop" ≠ ty) (h2 : "movement_resumed" ≠ ty) :
    alertsOfType (stopStep now sm lat lng addr speed).1 ty = [] := by
  unfold stopStep add_alert alertsOfType
  repeat' split <;> try simp [h1, h2]

/-! ### Branch behavior of the deviation sub-machine -/

lemma deviationStep_first (now : ℚ) (sm : MonitoringSystem) (lat lng : ℚ)
    (dc : DeviationCheck)
    (hact : sm.has_active_deviation = false) (hdev : dc.is_deviated = true) :
    deviationStep now sm lat lng dc =
      ([{ timestamp := now, type := "route_deviation", severity := "warning",
          message := firstDeviationMessage dc, position := some (lat, lng) }],
       { sm with
         alerts_data := sm.alerts_data ++
           [{ timestamp := now, type := "route_deviation", severity := "warning",
              message := firstDeviationMessage dc, position := some (lat, lng) }],
         total_route_deviations := sm.total_route_deviations + 1,
         has_active_deviation := true,
         last_deviation_detected_at := some now }) := by
  simp [deviationStep, add_alert, hact, hdev]

lemma deviationStep_repeat_fire (now t : ℚ) (sm : MonitoringSystem) (lat lng : ℚ)
    (dc : DeviationCheck)
    (hact : sm.has_active_deviation = true)
    (hlast : sm.last_deviation_detected_at = some t)
    (hge : (now - t) / 60 ≥ 2) (hdev : dc.is_deviated = true) :
    deviationStep now sm lat lng dc =
      ([{ timestamp := now, type := "route_deviation", severity := "warning",
          message := continuedDeviationMessage ((now - t) / 60) dc,
          position := some (lat, lng) }],
       { sm with
         alerts_data := sm.alerts_data ++
           [{ timestamp := now, type := "route_deviation", severity := "warning",
              message := continuedDeviationMessage ((now - t) / 60) dc,
              position := some (lat, lng) }],
         has_active_deviation := true,
         last_deviation_detected_at := some now }) := by
  simp [deviationStep, add_alert, hact, hlast, hge, hdev]

lemma deviationStep_repeat_quiet (now t : ℚ) (sm : MonitoringSystem) (lat lng : ℚ)
    (dc : DeviationCheck)
    (hact : sm.has_active_deviation = true)
    (hlast : sm.last_deviation_detected_at = some t)
    (hlt : ¬ (now - t) / 60 ≥ 2) (hdev : dc.is_deviated = true) :
    deviationStep now sm lat lng dc = ([], sm) := by
  simp [deviationStep, add_alert, hact, hlast, hlt, hdev]

lemma deviationStep_norate (now : ℚ) (sm : MonitoringSystem) (lat lng : ℚ)
    (dc : DeviationCheck)
    (hact : sm.has_active_deviation = true)
    (hlast : sm.last_deviation_detected_at = none)
    (hdev : dc.is_deviated = true) :
    deviationStep now sm lat lng dc =
      ([{ timestamp := now, type := "route_deviation", severity := "warning",
          message := activeNoTimestampMessage dc, position := some (lat, lng) }],
       { sm with
         alerts_data := sm.alerts_data ++
           [{ timestamp := now, type := "route_deviation", severity := "warning",
              message := activeNoTimestampMessage dc, position := some (lat, lng) }],
         has_active_deviation := true,
         last_deviation_detected_at := some now }) := by
  simp [deviationStep, add_alert, hact, hlast, hdev]

lemma deviationStep_back (now : ℚ) (sm : MonitoringSystem) (lat lng : ℚ)
    (dc : DeviationCheck)
    (hact : sm.has_active_deviation = true) (hdev : dc.is_deviated = false) :
    deviationStep now sm lat lng dc =
      ([{ timestamp := now, type := "route_back", severity := "info",
          message := "✅ Veículo retornou à rota planejada" ++
            (match sm.last_deviation_detected_at with
             | some t => timeOffRouteStr ((now - t) / 60)
             | none => ""),
          position := some (lat, lng) }],
       { sm with
         alerts_data := sm.alerts_data ++
           [{ timestamp := now, type := "route_back", severity := "info",
              message := "✅ Veículo retornou à rota planejada" ++
                (match sm.last_deviation_detected_at with
                 | some t => timeOffRouteStr ((now - t) / 60)
                 | none => ""),
              position := some (lat, lng) }],
         has_active_deviation := false }) := by
  simp [deviationStep, add_alert, hact, hdev]

lemma deviationStep_onroute (now : ℚ) (sm : MonitoringSystem) (lat lng : ℚ)
    (dc : DeviationCheck)
    (hact : sm.has_active_deviation = false) (hdev : dc.is_deviated = false) :
    deviationStep now sm lat lng dc = ([], sm) := by
  simp [deviationStep, hact, hdev]

/-! ### Branch behavior of the max-speed update and the stop sub-machine -/

lemma maxSpeedStep_zero (sm : MonitoringSystem) : maxSpeedStep sm 0 = sm := by
  simp [maxSpeedStep]

lemma stopStep_justStopped (now : ℚ) (sm : MonitoringSystem) (lat lng : ℚ)
    (addr : Option String) (hstop : sm.is_currently_stopped = false) :
    stopStep now sm lat lng addr 0 =
      ([], { sm with is_currently_stopped := true, stopped_since := some now }) := by
  simp [stopStep, hstop]

lemma stopStep_quiet (now ts : ℚ) (sm : MonitoringSystem) (lat lng : ℚ)
    (addr : Option String)
    (hstop : sm.is_currently_stopped = true)
    (hsince : sm.stopped_since = some ts)
    (hlt : ¬ (now - ts) / 60 ≥ 5) :
    stopStep now sm lat lng addr 0 = ([], sm) := by
  simp [stopStep, hstop, hsince, hlt]

lemma stopStep_ratelimited (now ts la : ℚ) (sm : MonitoringSystem) (lat lng : ℚ)
    (addr : Option String)
    (hstop : sm.is_currently_stopped = true)
    (hsince : sm.stopped_since = some ts)
    (hge : (now - ts) / 60 ≥ 5)
    (hlast : sm.last_stop_alert_at = some la)
    (hlt : ¬ (now - la) / 60 ≥ 5) :
    stopStep now sm lat lng addr 0 = ([], sm) := by
  simp [stopStep, hstop, hsince, hge, hlast, hlt]

lemma stopStep_fire_first (now ts : ℚ) (sm : MonitoringSystem) (lat lng : ℚ)
    (addr : Option String)
    (hstop : sm.is_currently_stopped = true)
    (hsince : sm.stopped_since = some ts)
    (hge : (now - ts) / 60 ≥ 5)
    (hlast : sm.last_stop_alert_at = none) :
    stopStep now sm lat lng addr 0 =
      ([{ timestamp := now, type := "prolonged_stop", severity := "warning",
          message := prolongedStopMessage ((now - ts) / 60) addr,
          position := some (lat, lng) }],
       { sm with
         alerts_data := sm.alerts_data ++
           [{ timestamp := now, type := "prolonged_stop", severity := "warning",
              message := prolongedStopMessage ((now - ts) / 60) addr,
              position := some (lat, lng) }],
         total_stops := sm.total_stops + 1,
         last_stop_alert_at := some now }) := by
  simp [stopStep, add_alert, hstop, hsince, hge, hlast]

lemma stopStep_fire_repeat (now ts la : ℚ) (sm : MonitoringSystem) (lat lng : ℚ)
    (addr : Option String)
    (hstop : sm.is_currently_stopped = true)
    (hsince : sm.stopped_since = some ts)
    (hge : (now - ts) / 60 ≥ 5)
    (hlast : sm.last_stop_alert_at = some la)
    (hge2 : (now - la) / 60 ≥ 5) :
    stopStep now sm lat lng addr 0 =
      ([{ timestamp := now, type := "prolonged_stop", severity := "warning",
          message := prolongedStopMessage ((now - ts) / 60) addr,
          position := some (lat, lng) }],
       { sm with
         alerts_data := sm.alerts_data ++
           [{ timestamp := now, type := "prolonged_stop", severity := "warning",
              message := prolongedStopMessage ((now - ts) / 60) addr,
              position := some (lat, lng) }],
         last_stop_alert_at := some now }) := by
  simp [stopStep, add_alert, hstop, hsince, hge, hlast, hge2]

lemma stopStep_moving (now : ℚ) (sm : MonitoringSystem) (lat lng : ℚ)
    (addr : Option String) (speed : ℚ) (hsp : speed ≠ 0)
    (hstop : sm.is_currently_stopped = false) :
    stopStep now sm lat lng addr speed = ([], sm) := by
  simp [stopStep, hsp, hstop]

lemma devCheck_congr (d : Dist) (sm1 sm2 : MonitoringSystem) (p : Position)
    (h1 : sm1.route = sm2.route)
    (h2 : sm1.route_deviation_tolerance_meters =
      sm2.route_deviation_tolerance_meters) :
    devCheck d sm1 p = devCheck d sm2 p := by
  unfold devCheck
  rw [h1, h2]

/-- One analysis cycle on a deviated sample, starting with no active
deviation: the episode counter increments, the deviation becomes active,
and one `route_deviation` warning alert is emitted at the tick instant. -/
lemma analyze_dev_first_fields (d : Dist) (now : ℚ) (sm : MonitoringSystem)
    (p : Position)
    (hst : sm.status = "EM_ANDAMENTO")
    (hact : sm.has_active_deviation = false)
    (hdev : (devCheck d sm p).is_deviated = true) :
    (analyze_current_position d now sm (some p)).2.status = sm.status ∧
    (analyze_current_position d now sm (some p)).2.route = sm.route ∧
    (analyze_current_position d now sm (some p)).2.route_deviation_tolerance_meters
      = sm.route_deviation_tolerance_meters ∧
    (analyze_current_position d now sm (some p)).2.has_active_deviation = true ∧
    (analyze_current_position d now sm (some p)).2.last_deviation_detected_at
      = some now ∧
    (analyze_current_position d now sm (some p)).2.total_route_deviations
      = sm.total_route_deviations + 1 ∧
    (alertsOfType (analyze_current_position d now sm (some p)).1.alerts_generated
        "route_deviation").map (fun a => (a.timestamp, a.severity))
      = [(now, "warning")] := by
  obtain ⟨hsnd, halerts⟩ := analyze_some_eq d now sm p hst
  rw [deviationStep_first now sm p.latitude p.longitude (devCheck d sm p) hact hdev]
    at hsnd halerts
  refine ⟨?_, ?_, ?_, ?_, ?_, ?_, ?_⟩
  · rw [hsnd]; simp [stopStep_preserves, maxSpeedStep_preserves]
  · rw [hsnd]; simp [stopStep_preserves, maxSpeedStep_preserves]
  · rw [hsnd]; simp [stopStep_preserves, maxSpeedStep_preserves]
  · rw [hsnd]; simp [stopStep_preserves, maxSpeedStep_preserves]
  · rw [hsnd]; simp [stopStep_preserves, maxSpeedStep_preserves]
  · rw [hsnd]; simp [stopStep_preserves, maxSpeedStep_preserves]
  · rw [halerts, alertsOfType_append,
      stopStep_alertsOfType _ _ _ _ _ _ "route_deviation" (by decide) (by decide)]
    simp [alertsOfType]

/-- One analysis cycle on a deviated sample while the deviation is already
active: the episode counter never moves, the deviation stays active, and an
alert fires exactly when the timestamp is missing or at least 2 minutes
old, refreshing the timestamp exactly then. -/
lemma analyze_dev_active_fields (d : Dist) (now : ℚ) (sm : MonitoringSystem)
    (p : Position)
    (hst : sm.status = "EM_ANDAMENTO")
    (hact : sm.has_active_deviation = true)
    (hdev : (devCheck d sm p).is_deviated = true) :
    (analyze_current_position d now sm (some p)).2.status = sm.status ∧
    (analyze_current_position d now sm (some p)).2.route = sm.route ∧
    (analyze_current_position d now sm (some p)).2.route_deviation_tolerance_meters
      = sm.route_deviation_tolerance_meters ∧
    (analyze_current_position d now sm (some p)).2.has_active_deviation = true ∧
    (analyze_current_position d now sm (some p)).2.total_route_deviations
      = sm.total_route_deviations ∧
    (analyze_current_position d now sm (some p)).2.last_deviation_detected_at
      = (match sm.last_deviation_detected_at with
         | none => some now
         | some t => if (now - t) / 60 ≥ 2 then some now else some t) ∧
    (alertsOfType (analyze_current_position d now sm (some p)).1.alerts_generated
        "route_deviation").map (fun a => (a.timestamp, a.severity))
      = (match sm.last_deviation_detected_at with
         | none => [(now, "warning")]
         | some t => if (now - t) / 60 ≥ 2 then [(now, "warning")] else []) := by
  obtain ⟨hsnd, halerts⟩ := analyze_some_eq d now sm p hst
  match hlast : sm.last_deviation_detected_at with
  | none =>
      rw [deviationStep_norate now sm p.latitude p.longitude (devCheck d sm p)
        hact hlast hdev] at hsnd halerts
      refine ⟨?_, ?_, ?_, ?_, ?_, ?_, ?_⟩
      · rw [hsnd]; simp [stopStep_preserves, maxSpeedStep_preserves]
      · rw [hsnd]; simp [stopStep_preserves, maxSpeedStep_preserves]
      · rw [hsnd]; simp [stopStep_preserves, maxSpeedStep_preserves]
      · rw [hsnd]; simp [stopStep_preserves, maxSpeedStep_preserves]
      · rw [hsnd]; simp [stopStep_preserves, maxSpeedStep_preserves]
      · rw [hsnd]; simp [stopStep_preserves, maxSpeedStep_preserves]
      · rw [halerts, alertsOfType_append,
          stopStep_alertsOfType _ _ _ _ _ _ "route_deviation" (by decide) (by decide)]
        simp [alertsOfType]
  | some t =>
      by_cases hge : (now - t) / 60 ≥ 2
      · rw [deviationStep_repeat_fire now t sm p.latitude p.longitude
          (devCheck d sm p) hact hlast hge hdev] at hsnd halerts
        refine ⟨?_, ?_, ?_, ?_, ?_, ?_, ?_⟩
        · rw [hsnd]; simp [stopStep_preserves, maxSpeedStep_preserves]
        · rw [hsnd]; simp [stopStep_preserves, maxSpeedStep_preserves]
        · rw [hsnd]; simp [stopStep_preserves, maxSpeedStep_preserves]
        · rw [hsnd]; simp [stopStep_preserves, maxSpeedStep_preserves]
        · rw [hsnd]; simp [stopStep_preserves, maxSpeedStep_preserves]
        · rw [hsnd]; simp [stopStep_preserves, maxSpeedStep_preserves, hge]
        · rw [halerts, alertsOfType_append,
            stopStep_alertsOfType _ _ _ _ _ _ "route_deviation" (by decide) (by decide)]
          simp [alertsOfType, hge]
      · rw [deviationStep_repeat_quiet now t sm p.latitude p.longitude
          (devCheck d sm p) hact hlast hge hdev] at hsnd halerts
        refine ⟨?_, ?_, ?_, ?_, ?_, ?_, ?_⟩
        · rw [hsnd]; simp [stopStep_preserves, maxSpeedStep_preserves]
        · rw [hsnd]; simp [stopStep_preserves, maxSpeedStep_preserves]
        · rw [hsnd]; simp [stopStep_preserves, maxSpeedStep_preserves]
        · rw [hsnd]; simp [stopStep_preserves, maxSpeedStep_preserves, hact]
        · rw [hsnd]; simp [stopStep_preserves, maxSpeedStep_preserves]
        · rw [hsnd]; simp [stopStep_preserves, maxSpeedStep_preserves, hlast, hge]
        · rw [halerts, alertsOfType_append,
            stopStep_alertsOfType _ _ _ _ _ _ "route_deviation" (by decide) (by decide)]
          simp [alertsOfType, hge]

/-- C10: when a deviation is flagged active but its timestamp is missing, a
deviated sample emits a `route_deviation` warning alert immediately (no
2-minute gate), does not increment `total_route_deviations`, and sets
`last_deviation_detected_at` to the tick instant. -/
theorem C10_active_without_timestamp (d : Dist) (now : ℚ) (sm : MonitoringSystem)
    (p : Position)
    (hst : sm.status = "EM_ANDAMENTO")
    (hact : sm.has_active_deviation = true)
    (hlast : sm.last_deviation_detected_at = none)
    (hdev : (devCheck d sm p).is_deviated = true) :
    (alertsOfType (analyze_current_position d now sm (some p)).1.alerts_generated
        "route_deviation").map (fun a => (a.timestamp, a.severity))
      = [(now, "warning")] ∧
    (analyze_current_position d now sm (some p)).2.total_route_deviations
      = sm.total_route_deviations ∧
    (analyze_current_position d now sm (some p)).2.last_deviation_detected_at
      = some now ∧
    (analyze_current_position d now sm (some p)).2.has_active_deviation = true := by
  obtain ⟨h1, h2, h3, h4, h5, h6, h7⟩ := analyze_dev_active_fields d now sm p hst hact hdev
  rw [hlast] at h6 h7
  exact ⟨h7, h5, h6, h4⟩

/-- Witness for C10 at a concrete input. -/
theorem C10_active_without_timestamp_witness :
    (alertsOfType (analyze_current_position dFar 0
        { smBase with has_active_deviation := true } (some posMoving)).1.alerts_generated
        "route_deviation").map (fun a => (a.timestamp, a.severity))
      = [(0, "warning")] ∧
    (analyze_current_position dFar 0 { smBase with has_active_deviation := true }
        (some posMoving)).2.total_route_deviations = 0 := by
  have h := C10_active_without_timestamp dFar 0
    { smBase with has_active_deviation := true } posMoving
    (by decide) (by decide) (by decide) (by decide)
  exact ⟨h.1, h.2.1⟩

/-- C8: a sample back inside the tolerance while a deviation is active
emits exactly one `route_back` info alert whose message carries the
human-readable elapsed time since `last_deviation_detected_at`, and resets
`has_active_deviation`, regardless of how long the deviation lasted. -/
theorem C8_route_back_recovery (d : Dist) (now t : ℚ) (sm : MonitoringSystem)
    (p : Position)
    (hst : sm.status = "EM_ANDAMENTO")
    (hact : sm.has_active_deviation = true)
    (hlast : sm.last_deviation_detected_at = some t)
    (hdev : (devCheck d sm p).is_deviated = false) :
    alertsOfType (analyze_current_position d now sm (some p)).1.alerts_generated
        "route_back"
      = [{ timestamp := now, type := "route_back", severity := "info",
           message := "✅ Veículo retornou à rota planejada" ++
             timeOffRouteStr ((now - t) / 60),
           position := some (p.latitude, p.longitude) }] ∧
    (analyze_current_position d now sm (some p)).2.has_active_deviation = false := by
  obtain ⟨hsnd, halerts⟩ := analyze_some_eq d now sm p hst
  rw [deviationStep_back now sm p.latitude p.longitude (devCheck d sm p) hact hdev]
    at hsnd halerts
  rw [hlast] at hsnd halerts
  constructor
  · rw [halerts, alertsOfType_append,
      stopStep_alertsOfType _ _ _ _ _ _ "route_back" (by decide) (by decide)]
    simp [alertsOfType]
  · rw [hsnd]; simp [stopStep_preserves, maxSpeedStep_preserves]

/-- Witness for C8 at a concrete input: a deviation that lasted 90 minutes. -/
theorem C8_route_back_recovery_witness :
    alertsOfType (analyze_current_position dZero 5400
        { smBase with has_active_deviation := true,
                      last_deviation_detected_at := some 0 }
        (some posMoving)).1.alerts_generated "route_back"
      = [{ timestamp := 5400, type := "route_back", severity := "info",
           message := "✅ Veículo retornou à rota planejada (ficou fora por 1h30min)",
           position := some (0, 0) }] ∧
    (analyze_current_position dZero 5400
        { smBase with has_active_deviation := true,
                      last_deviation_detected_at := some 0 }
        (some posMoving)).2.has_active_deviation = false := by
  have h := C8_route_back_recovery dZero 5400 0
    { smBase with has_active_deviation := true,
                  last_deviation_detected_at := some 0 }
    posMoving (by decide) (by decide) (by decide) (by decide)
  refine ⟨?_, h.2⟩
  rw [h.1]
  have h90 : ((5400 : ℚ) - 0) / 60 = 90 := by norm_num
  rw [h90, timeOffRouteStr, if_neg (by norm_num)]
  have h1 : pyInt ((90 : ℚ) / 60) = 1 := by norm_num [pyInt]
  have h2 : pyInt (pyMod (90 : ℚ) 60) = 30 := by norm_num [pyMod, pyInt]
  rw [h1, h2]
  rfl

lemma feedPositions_nil (d : Dist) (acc : MonitoringSystem × List Alert) :
    feedPositions d acc [] = acc := rfl

lemma feedPositions_cons (d : Dist) (sm : MonitoringSystem) (alerts : List Alert)
    (t : ℚ) (p : Position) (rest : List (ℚ × Position)) :
    feedPositions d (sm, alerts) ((t, p) :: rest) =
      feedPositions d ((analyze_current_position d t sm (some p)).2,
        alerts ++ (analyze_current_position d t sm (some p)).1.alerts_generated)
        rest := rfl

lemma alertsOfType_length_of_map (l : List Alert) (ty : String)
    (out : List (ℚ × String))
    (h : (alertsOfType l ty).map (fun a => (a.timestamp, a.severity)) = out) :
    (alertsOfType l ty).length = out.length := by
  rw [← h, List.length_map]

/-- Feeding any number of deviated samples through a state whose deviation
is already active never moves the episode counter and keeps the deviation
active. -/
lemma feed_still_deviated (d : Dist) (l : List (ℚ × Position)) :
    ∀ (sm : MonitoringSystem) (acc : List Alert),
      sm.status = "EM_ANDAMENTO" →
      sm.has_active_deviation = true →
      (∀ x ∈ l, (devCheck d sm x.2).is_deviated = true) →
      (feedPositions d (sm, acc) l).1.total_route_deviations =
        sm.total_route_deviations ∧
      (feedPositions d (sm, acc) l).1.has_active_deviation = true := by
  induction l with
  | nil => exact fun sm acc _ hact _ => ⟨rfl, hact⟩
  | cons s rest ih =>
      intro sm acc hst hact hdev
      obtain ⟨t, p⟩ := s
      rw [feedPositions_cons]
      obtain ⟨h1, h2, h3, h4, h5, h6, h7⟩ :=
        analyze_dev_active_fields d t sm p hst hact (hdev (t, p) (by simp))
      have hst' : (analyze_current_position d t sm (some p)).2.status =
          "EM_ANDAMENTO" := by rw [h1, hst]
      have hdev' : ∀ x ∈ rest,
          (devCheck d (analyze_current_position d t sm (some p)).2 x.2).is_deviated
            = true := by
        intro x hx
        rw [devCheck_congr d _ sm x.2 h2 h3]
        exact hdev x (by simp [hx])
      obtain ⟨k1, k2⟩ := ih _ _ hst' h4 hdev'
      exact ⟨by rw [k1, h5], k2⟩

/-- C1: from a state with no active deviation, a run of consecutive
deviated samples increments `total_route_deviations` exactly once — on the
first sample — and never again while the episode lasts. -/
theorem C1_deviation_episode_increment (d : Dist) (sm : MonitoringSystem)
    (t : ℚ) (p : Position) (rest : List (ℚ × Position))
    (hst : sm.status = "EM_ANDAMENTO")
    (hact : sm.has_active_deviation = false)
    (hdev : ∀ x ∈ (t, p) :: rest, (devCheck d sm x.2).is_deviated = true) :
    (analyze_current_position d t sm (some p)).2.total_route_deviations =
      sm.total_route_deviations + 1 ∧
    (feedPositions d (sm, []) ((t, p) :: rest)).1.total_route_deviations =
      sm.total_route_deviations + 1 := by
  obtain ⟨h1, h2, h3, h4, h5, h6, h7⟩ :=
    analyze_dev_first_fields d t sm p hst hact (hdev (t, p) (by simp))
  refine ⟨h6, ?_⟩
  rw [feedPositions_cons]
  have hdev' : ∀ x ∈ rest,
      (devCheck d (analyze_current_position d t sm (some p)).2 x.2).is_deviated
        = true := by
    intro x hx
    rw [devCheck_congr d _ sm x.2 h2 h3]
    exact hdev x (by simp [hx])
  obtain ⟨k1, _⟩ := feed_still_deviated d rest _ _ (by rw [h1, hst]) h4 hdev'
  rw [k1, h6]

/-- Witness for C1 at a concrete input: five deviated samples 30 s apart
increment the counter exactly once. -/
theorem C1_deviation_episode_increment_witness :
    (feedPositions dFar (smBase, [])
        [(0, posMoving), (30, posMoving), (60, posMoving),
         (90, posMoving), (120, posMoving)]).1.total_route_deviations = 1 := by
  have h := C1_deviation_episode_increment dFar smBase 0 posMoving
    [(30, posMoving), (60, posMoving), (90, posMoving), (120, posMoving)]
    (by decide) (by decide) (by decide)
  rw [h.2]
  decide

/-- Two consecutive deviated samples `δ` seconds apart, starting from a
fresh state: the second sample alerts again exactly when `δ` is at least
two minutes. -/
lemma feed_two_deviated (d : Dist) (sm : MonitoringSystem) (p : Position)
    (t1 δ : ℚ)
    (hst : sm.status = "EM_ANDAMENTO")
    (hact : sm.has_active_deviation = false)
    (hdev : (devCheck d sm p).is_deviated = true) :
    (alertsOfType (feedPositions d (sm, []) [(t1, p), (t1 + δ, p)]).2
        "route_deviation").length = if (t1 + δ - t1) / 60 ≥ 2 then 2 else 1 := by
  rw [feedPositions_cons]
  obtain ⟨h1, h2, h3, h4, h5, h6, h7⟩ :=
    analyze_dev_first_fields d t1 sm p hst hact hdev
  have hst' : (analyze_current_position d t1 sm (some p)).2.status =
      "EM_ANDAMENTO" := by rw [h1, hst]
  have hdev' :
      (devCheck d (analyze_current_position d t1 sm (some p)).2 p).is_deviated
        = true := by
    rw [devCheck_congr d _ sm p h2 h3]; exact hdev
  obtain ⟨g1, g2, g3, g4, g5, g6, g7⟩ :=
    analyze_dev_active_fields d (t1 + δ) _ p hst' h4 hdev'
  rw [feedPositions_cons, feedPositions_nil]
  simp only [h5] at g7
  rw [List.nil_append, alertsOfType_append, List.length_append,
    alertsOfType_length_of_map _ _ _ h7, alertsOfType_length_of_map _ _ _ g7]
  by_cases hge : (t1 + δ - t1) / 60 ≥ 2
  · rw [if_pos hge, if_pos hge]; rfl
  · rw [if_neg hge, if_neg hge]; rfl

/-- C3: while a deviation is active with timestamp `t0`, a further deviated
sample alerts exactly when two minutes have passed, never increments the
episode counter, and refreshes the timestamp exactly when it alerts; hence
two fresh deviated samples 30 s apart give 1 alert and two samples 3 min
apart give 2. -/
theorem C3_repeat_alert_rate_limiting (d : Dist) (sm : MonitoringSystem)
    (p : Position) (t0 now t1 : ℚ)
    (hst : sm.status = "EM_ANDAMENTO")
    (hdev : (devCheck d sm p).is_deviated = true) :
    ((alertsOfType (analyze_current_position d now
        { sm with has_active_deviation := true,
                  last_deviation_detected_at := some t0 }
        (some p)).1.alerts_generated "route_deviation").length
      = if (now - t0) / 60 ≥ 2 then 1 else 0) ∧
    (analyze_current_position d now
        { sm with has_active_deviation := true,
                  last_deviation_detected_at := some t0 }
        (some p)).2.total_route_deviations = sm.total_route_deviations ∧
    ((analyze_current_position d now
        { sm with has_active_deviation := true,
                  last_deviation_detected_at := some t0 }
        (some p)).2.last_deviation_detected_at
      = if (now - t0) / 60 ≥ 2 then some now else some t0) ∧
    (alertsOfType (feedPositions d ({ sm with has_active_deviation := false }, [])
        [(t1, p), (t1 + 30, p)]).2 "route_deviation").length = 1 ∧
    (alertsOfType (feedPositions d ({ sm with has_active_deviation := false }, [])
        [(t1, p), (t1 + 180, p)]).2 "route_deviation").length = 2 := by
  obtain ⟨h1, h2, h3, h4, h5, h6, h7⟩ :=
    analyze_dev_active_fields d now
      { sm with has_active_deviation := true,
                last_deviation_detected_at := some t0 } p
      (by simpa using hst) rfl hdev
  simp only at h5 h6 h7
  refine ⟨?_, h5, h6, ?_, ?_⟩
  · rw [alertsOfType_length_of_map _ _ _ h7]
    by_cases hge : (now - t0) / 60 ≥ 2
    · rw [if_pos hge, if_pos hge]; rfl
    · rw [if_neg hge, if_neg hge]; rfl
  · rw [feed_two_deviated d { sm with has_active_deviation := false } p t1 30
      (by simpa using hst) rfl hdev]
    rw [if_neg (by rw [show (t1 + 30 - t1) / 60 = 1/2 by ring]; try norm_num)]
  · rw [feed_two_deviated d { sm with has_active_deviation := false } p t1 180
      (by simpa using hst) rfl hdev]
    rw [if_pos (by rw [show (t1 + 180 - t1) / 60 = 3 by ring]; try norm_num)]

/-- Witness for C3 at a concrete input. -/
theorem C3_repeat_alert_rate_limiting_witness :
    ((alertsOfType (analyze_current_position dFar 120
        { smBase with has_active_deviation := true,
                      last_deviation_detected_at := some 0 }
        (some posMoving)).1.alerts_generated "route_deviation").length = 1) ∧
    (alertsOfType (feedPositions dFar
        ({ smBase with has_active_deviation := false }, [])
        [(0, posMoving), (0 + 30, posMoving)]).2 "route_deviation").length = 1 := by
  have h := C3_repeat_alert_rate_limiting dFar smBase posMoving 0 120 0
    (by decide) (by decide)
  refine ⟨?_, h.2.2.2.1⟩
  rw [h.1, if_pos (by norm_num)]

lemma alertsOfType_nil (ty : String) : alertsOfType [] ty = [] := rfl

lemma alertsOfType_map_append (f : Alert → ℚ × String) (l1 l2 : List Alert)
    (ty : String) :
    (alertsOfType (l1 ++ l2) ty).map f =
      (alertsOfType l1 ty).map f ++ (alertsOfType l2 ty).map f := by
  rw [alertsOfType_append, List.map_append]

/-- One analysis cycle on a zero-speed sample while moving: the trip
becomes stopped as of the tick instant, nothing else of the stop machinery
moves, and no `prolonged_stop` alert fires. -/
lemma analyze_stop_justStopped (d : Dist) (now : ℚ) (sm : MonitoringSystem)
    (p : Position)
    (hst : sm.status = "EM_ANDAMENTO")
    (hsp : p.speed.getD 0 = 0)
    (hstop : sm.is_currently_stopped = false) :
    (analyze_current_position d now sm (some p)).2.status = sm.status ∧
    (analyze_current_position d now sm (some p)).2.is_currently_stopped = true ∧
    (analyze_current_position d now sm (some p)).2.stopped_since = some now ∧
    (analyze_current_position d now sm (some p)).2.last_stop_alert_at =
      sm.last_stop_alert_at ∧
    (analyze_current_position d now sm (some p)).2.total_stops = sm.total_stops ∧
    alertsOfType (analyze_current_position d now sm (some p)).1.alerts_generated
      "prolonged_stop" = [] := by
  obtain ⟨hsnd, halerts⟩ := analyze_some_eq d now sm p hst
  rw [hsp, maxSpeedStep_zero] at hsnd halerts
  have hp := deviationStep_preserves now sm p.latitude p.longitude (devCheck d sm p)
  rw [stopStep_justStopped now _ p.latitude p.longitude p.address
    (by rw [hp.2.2.2.1, hstop])] at hsnd halerts
  refine ⟨?_, ?_, ?_, ?_, ?_, ?_⟩
  · rw [hsnd]; simp [deviationStep_preserves]
  · rw [hsnd]
  · rw [hsnd]
  · rw [hsnd]; simp [deviationStep_preserves]
  · rw [hsnd]; simp [deviationStep_preserves]
  · rw [halerts, alertsOfType_append,
      deviationStep_alertsOfType _ _ _ _ _ "prolonged_stop" (by decide) (by decide)]
    simp [alertsOfType]

/-- One analysis cycle on a zero-speed sample while stopped for less than
5 minutes: the stop machinery is untouched and no alert fires. -/
lemma analyze_stop_quiet (d : Dist) (now ts : ℚ) (sm : MonitoringSystem)
    (p : Position)
    (hst : sm.status = "EM_ANDAMENTO")
    (hsp : p.speed.getD 0 = 0)
    (hstop : sm.is_currently_stopped = true)
    (hsince : sm.stopped_since = some ts)
    (hlt : ¬ (now - ts) / 60 ≥ 5) :
    (analyze_current_position d now sm (some p)).2.status = sm.status ∧
    (analyze_current_position d now sm (some p)).2.is_currently_stopped = true ∧
    (analyze_current_position d now sm (some p)).2.stopped_since = some ts ∧
    (analyze_current_position d now sm (some p)).2.last_stop_alert_at =
      sm.last_stop_alert_at ∧
    (analyze_current_position d now sm (some p)).2.total_stops = sm.total_stops ∧
    alertsOfType (analyze_current_position d now sm (some p)).1.alerts_generated
      "prolonged_stop" = [] := by
  obtain ⟨hsnd, halerts⟩ := analyze_some_eq d now sm p hst
  rw [hsp, maxSpeedStep_zero] at hsnd halerts
  have hp := deviationStep_preserves now sm p.latitude p.longitude (devCheck d sm p)
  rw [stopStep_quiet now ts _ p.latitude p.longitude p.address
    (by rw [hp.2.2.2.1, hstop]) (by rw [hp.2.2.2.2.1, hsince]) hlt] at hsnd halerts
  refine ⟨?_, ?_, ?_, ?_, ?_, ?_⟩
  · rw [hsnd]; simp [deviationStep_preserves]
  · rw [hsnd, hp.2.2.2.1, hstop]
  · rw [hsnd, hp.2.2.2.2.1, hsince]
  · rw [hsnd]; simp [deviationStep_preserves]
  · rw [hsnd]; simp [deviationStep_preserves]
  · rw [halerts, alertsOfType_append,
      deviationStep_alertsOfType _ _ _ _ _ "prolonged_stop" (by decide) (by decide)]
    simp [alertsOfType]

/-- One analysis cycle on a zero-speed sample stopped for 5+ minutes whose
last stop alert is less than 5 minutes old: rate-limited, nothing moves. -/
lemma analyze_stop_ratelimited (d : Dist) (now ts la0 : ℚ)
    (sm : MonitoringSystem) (p : Position)
    (hst : sm.status = "EM_ANDAMENTO")
    (hsp : p.speed.getD 0 = 0)
    (hstop : sm.is_currently_stopped = true)
    (hsince : sm.stopped_since = some ts)
    (hge : (now - ts) / 60 ≥ 5)
    (hla : sm.last_stop_alert_at = some la0)
    (hlt : ¬ (now - la0) / 60 ≥ 5) :
    (analyze_current_position d now sm (some p)).2.status = sm.status ∧
    (analyze_current_position d now sm (some p)).2.is_currently_stopped = true ∧
    (analyze_current_position d now sm (some p)).2.stopped_since = some ts ∧
    (analyze_current_position d now sm (some p)).2.last_stop_alert_at = some la0 ∧
    (analyze_current_position d now sm (some p)).2.total_stops = sm.total_stops ∧
    alertsOfType (analyze_current_position d now sm (some p)).1.alerts_generated
      "prolonged_stop" = [] := by
  obtain ⟨hsnd, halerts⟩ := analyze_some_eq d now sm p hst
  rw [hsp, maxSpeedStep_zero] at hsnd halerts
  have hp := deviationStep_preserves now sm p.latitude p.longitude (devCheck d sm p)
  rw [stopStep_ratelimited now ts la0 _ p.latitude p.longitude p.address
    (by rw [hp.2.2.2.1, hstop]) (by rw [hp.2.2.2.2.1, hsince]) hge
    (by rw [hp.2.2.2.2.2.1, hla]) hlt] at hsnd halerts
  refine ⟨?_, ?_, ?_, ?_, ?_, ?_⟩
  · rw [hsnd]; simp [deviationStep_preserves]
  · rw [hsnd, hp.2.2.2.1, hstop]
  · rw [hsnd, hp.2.2.2.2.1, hsince]
  · rw [hsnd, hp.2.2.2.2.2.1, hla]
  · rw [hsnd]; simp [deviationStep_preserves]
  · rw [halerts, alertsOfType_append,
      deviationStep_alertsOfType _ _ _ _ _ "prolonged_stop" (by decide) (by decide)]
    simp [alertsOfType]

/-- One analysis cycle on a zero-speed sample stopped for 5+ minutes with no
stop alert yet in the episode: a `prolonged_stop` warning alert fires at the
tick instant, `total_stops` increments, and the alert timestamp is recorded. -/
lemma analyze_stop_fire_first (d : Dist) (now ts : ℚ) (sm : MonitoringSystem)
    (p : Position)
    (hst : sm.status = "EM_ANDAMENTO")
    (hsp : p.speed.getD 0 = 0)
    (hstop : sm.is_currently_stopped = true)
    (hsince : sm.stopped_since = some ts)
    (hge : (now - ts) / 60 ≥ 5)
    (hla : sm.last_stop_alert_at = none) :
    (analyze_current_position d now sm (some p)).2.status = sm.status ∧
    (analyze_current_position d now sm (some p)).2.is_currently_stopped = true ∧
    (analyze_current_position d now sm (some p)).2.stopped_since = some ts ∧
    (analyze_current_position d now sm (some p)).2.last_stop_alert_at = some now ∧
    (analyze_current_position d now sm (some p)).2.total_stops =
      sm.total_stops + 1 ∧
    (alertsOfType (analyze_current_position d now sm (some p)).1.alerts_generated
        "prolonged_stop").map (fun a => (a.timestamp, a.severity))
      = [(now, "warning")] := by
  obtain ⟨hsnd, halerts⟩ := analyze_some_eq d now sm p hst
  rw [hsp, maxSpeedStep_zero] at hsnd halerts
  have hp := deviationStep_preserves now sm p.latitude p.longitude (devCheck d sm p)
  rw [stopStep_fire_first now ts _ p.latitude p.longitude p.address
    (by rw [hp.2.2.2.1, hstop]) (by rw [hp.2.2.2.2.1, hsince]) hge
    (by rw [hp.2.2.2.2.2.1, hla])] at hsnd halerts
  refine ⟨?_, ?_, ?_, ?_, ?_, ?_⟩
  · rw [hsnd]; simp [deviationStep_preserves]
  · rw [hsnd, hp.2.2.2.1, hstop]
  · rw [hsnd, hp.2.2.2.2.1, hsince]
  · rw [hsnd]
  · rw [hsnd]; simp [deviationStep_preserves]
  · rw [halerts, alertsOfType_map_append,
      deviationStep_alertsOfType _ _ _ _ _ "prolonged_stop" (by decide) (by decide)]
    simp [alertsOfType]

/-- One analysis cycle on a zero-speed sample stopped for 5+ minutes whose
last stop alert is 5+ minutes old: another `prolonged_stop` warning alert
fires, `total_stops` does not move, and the alert timestamp refreshes. -/
lemma analyze_stop_fire_repeat (d : Dist) (now ts la0 : ℚ)
    (sm : MonitoringSystem) (p : Position)
    (hst : sm.status = "EM_ANDAMENTO")
    (hsp : p.speed.getD 0 = 0)
    (hstop : sm.is_currently_stopped = true)
    (hsince : sm.stopped_since = some ts)
    (hge : (now - ts) / 60 ≥ 5)
    (hla : sm.last_stop_alert_at = some la0)
    (hge2 : (now - la0) / 60 ≥ 5) :
    (analyze_current_position d now sm (some p)).2.status = sm.status ∧
    (analyze_current_position d now sm (some p)).2.is_currently_stopped = true ∧
    (analyze_current_position d now sm (some p)).2.stopped_since = some ts ∧
    (analyze_current_position d now sm (some p)).2.last_stop_alert_at = some now ∧
    (analyze_current_position d now sm (some p)).2.total_stops = sm.total_stops ∧
    (alertsOfType (analyze_current_position d now sm (some p)).1.alerts_generated
        "prolonged_stop").map (fun a => (a.timestamp, a.severity))
      = [(now, "warning")] := by
  obtain ⟨hsnd, halerts⟩ := analyze_some_eq d now sm p hst
  rw [hsp, maxSpeedStep_zero] at hsnd halerts
  have hp := deviationStep_preserves now sm p.latitude p.longitude (devCheck d sm p)
  rw [stopStep_fire_repeat now ts la0 _ p.latitude p.longitude p.address
    (by rw [hp.2.2.2.1, hstop]) (by rw [hp.2.2.2.2.1, hsince]) hge
    (by rw [hp.2.2.2.2.2.1, hla]) hge2] at hsnd halerts
  refine ⟨?_, ?_, ?_, ?_, ?_, ?_⟩
  · rw [hsnd]; simp [deviationStep_preserves]
  · rw [hsnd, hp.2.2.2.1, hstop]
  · rw [hsnd, hp.2.2.2.2.1, hsince]
  · rw [hsnd]
  · rw [hsnd]; simp [deviationStep_preserves]
  · rw [halerts, alertsOfType_map_append,
      deviationStep_alertsOfType _ _ _ _ _ "prolonged_stop" (by decide) (by decide)]
    simp [alertsOfType]

set_option maxHeartbeats 2000000 in
/-- C2: from a moving state with clean stop bookkeeping, a zero-speed
sample every minute for 20 minutes increments `total_stops` exactly once
and fires exactly four `prolonged_stop` warning alerts, at the samples of
minutes 5, 10, 15 and 20. -/
theorem C2_prolonged_stop_episode (d : Dist) (t0 : ℚ) (sm : MonitoringSystem)
    (p : Position)
    (hst : sm.status = "EM_ANDAMENTO")
    (hmoving : sm.is_currently_stopped = false)
    (hsince : sm.stopped_since = none)
    (hla : sm.last_stop_alert_at = none)
    (hsp : p.speed = some 0) :
    (feedPositions d (sm, []) [(t0, p), ((t0 + 60), p), ((t0 + 120), p), ((t0 + 180), p), ((t0 + 240), p), ((t0 + 300), p), ((t0 + 360), p), ((t0 + 420), p), ((t0 + 480), p), ((t0 + 540), p), ((t0 + 600), p), ((t0 + 660), p), ((t0 + 720), p), ((t0 + 780), p), ((t0 + 840), p), ((t0 + 900), p), ((t0 + 960), p), ((t0 + 1020), p), ((t0 + 1080), p), ((t0 + 1140), p), ((t0 + 1200), p)]).1.total_stops
      = sm.total_stops + 1 ∧
    (alertsOfType (feedPositions d (sm, []) [(t0, p), ((t0 + 60), p), ((t0 + 120), p), ((t0 + 180), p), ((t0 + 240), p), ((t0 + 300), p), ((t0 + 360), p), ((t0 + 420), p), ((t0 + 480), p), ((t0 + 540), p), ((t0 + 600), p), ((t0 + 660), p), ((t0 + 720), p), ((t0 + 780), p), ((t0 + 840), p), ((t0 + 900), p), ((t0 + 960), p), ((t0 + 1020), p), ((t0 + 1080), p), ((t0 + 1140), p), ((t0 + 1200), p)]).2
        "prolonged_stop").map (fun a => (a.timestamp, a.severity))
      = [((t0 + 300), "warning"), ((t0 + 600), "warning"),
         ((t0 + 900), "warning"), ((t0 + 1200), "warning")] := by
  have hsp0 : p.speed.getD 0 = 0 := by rw [hsp]; rfl
  obtain ⟨b0st, b0stop, b0since, b0la, b0stops, b0al⟩ :=
    analyze_stop_justStopped d t0 sm p hst hsp0 hmoving
  rw [feedPositions_cons]
  set s1 := (analyze_current_position d t0 sm (some p)).2 with hs1
  set g0 := (analyze_current_position d t0 sm (some p)).1.alerts_generated with hg0
  have c1st : s1.status = "EM_ANDAMENTO" := by rw [b0st]; exact hst
  have c1since : s1.stopped_since = some t0 := b0since
  have c1la : s1.last_stop_alert_at = none := by rw [b0la]; exact hla
  have c1stops : s1.total_stops = sm.total_stops := b0stops
  obtain ⟨b1st, b1stop, b1since, b1la, b1stops, b1al⟩ :=
    analyze_stop_quiet d (t0 + 60) t0 s1 p c1st hsp0 b0stop c1since
      (by rw [show (t0 + 60 - t0) / 60 = 1 by ring]; try norm_num)
  rw [feedPositions_cons]
  set s2 := (analyze_current_position d (t0 + 60) s1 (some p)).2 with hs2
  set g1 := (analyze_current_position d (t0 + 60) s1 (some p)).1.alerts_generated with hg1
  have c2st : s2.status = "EM_ANDAMENTO" := by rw [b1st]; exact c1st
  have c2since : s2.stopped_since = some t0 := b1since
  have c2la : s2.last_stop_alert_at = none := by rw [b1la]; exact c1la
  have c2stops : s2.total_stops = sm.total_stops := by rw [b1stops]; exact c1stops
  obtain ⟨b2st, b2stop, b2since, b2la, b2stops, b2al⟩ :=
    analyze_stop_quiet d (t0 + 120) t0 s2 p c2st hsp0 b1stop c2since
      (by rw [show (t0 + 120 - t0) / 60 = 2 by ring]; try norm_num)
  rw [feedPositions_cons]
  set s3 := (analyze_current_position d (t0 + 120) s2 (some p)).2 with hs3
  set g2 := (analyze_current_position d (t0 + 120) s2 (some p)).1.alerts_generated with hg2
  have c3st : s3.status = "EM_ANDAMENTO" := by rw [b2st]; exact c2st
  have c3since : s3.stopped_since = some t0 := b2since
  have c3la : s3.last_stop_alert_at = none := by rw [b2la]; exact c2la
  have c3stops : s3.total_stops = sm.total_stops := by rw [b2stops]; exact c2stops
  obtain ⟨b3st, b3stop, b3since, b3la, b3stops, b3al⟩ :=
    analyze_stop_quiet d (t0 + 180) t0 s3 p c3st hsp0 b2stop c3since
      (by rw [show (t0 + 180 - t0) / 60 = 3 by ring]; try norm_num)
  rw [feedPositions_cons]
  set s4 := (analyze_current_position d (t0 + 180) s3 (some p)).2 with hs4
  set g3 := (analyze_current_position d (t0 + 180) s3 (some p)).1.alerts_generated with hg3
  have c4st : s4.status = "EM_ANDAMENTO" := by rw [b3st]; exact c3st
  have c4since : s4.stopped_since = some t0 := b3since
  have c4la : s4.last_stop_alert_at = none := by rw [b3la]; exact c3la
  have c4stops : s4.total_stops = sm.total_stops := by rw [b3stops]; exact c3stops
  obtain ⟨b4st, b4stop, b4since, b4la, b4stops, b4al⟩ :=
    analyze_stop_quiet d (t0 + 240) t0 s4 p c4st hsp0 b3stop c4since
      (by rw [show (t0 + 240 - t0) / 60 = 4 by ring]; try norm_num)
  rw [feedPositions_cons]
  set s5 := (analyze_current_position d (t0 + 240) s4 (some p)).2 with hs5
  set g4 := (analyze_current_position d (t0 + 240) s4 (some p)).1.alerts_generated with hg4
  have c5st : s5.status = "EM_ANDAMENTO" := by rw [b4st]; exact c4st
  have c5since : s5.stopped_since = some t0 := b4since
  have c5la : s5.last_stop_alert_at = none := by rw [b4la]; exact c4la
  have c5stops : s5.total_stops = sm.total_stops := by rw [b4stops]; exact c4stops
  obtain ⟨b5st, b5stop, b5since, b5la, b5stops, b5al⟩ :=
    analyze_stop_fire_first d (t0 + 300) t0 s5 p c5st hsp0 b4stop c5since
      (by rw [show (t0 + 300 - t0) / 60 = 5 by ring]; try norm_num) c5la
  rw [feedPositions_cons]
  set s6 := (analyze_current_position d (t0 + 300) s5 (some p)).2 with hs6
  set g5 := (analyze_current_position d (t0 + 300) s5 (some p)).1.alerts_generated with hg5
  have c6st : s6.status = "EM_ANDAMENTO" := by rw [b5st]; exact c5st
  have c6since : s6.stopped_since = some t0 := b5since
  have c6la : s6.last_stop_alert_at = some (t0 + 300) := b5la
  have c6stops : s6.total_stops = sm.total_stops + 1 := by rw [b5stops]; rw [c5stops]
  obtain ⟨b6st, b6stop, b6since, b6la, b6stops, b6al⟩ :=
    analyze_stop_ratelimited d (t0 + 360) t0 (t0 + 300) s6 p c6st hsp0 b5stop c6since
      (by rw [show (t0 + 360 - t0) / 60 = 6 by ring]; try norm_num) c6la
      (by rw [show (t0 + 360 - (t0 + 300)) / 60 = 60/60 by ring]; try norm_num)
  rw [feedPositions_cons]
  set s7 := (analyze_current_position d (t0 + 360) s6 (some p)).2 with hs7
  set g6 := (analyze_current_position d (t0 + 360) s6 (some p)).1.alerts_generated with hg6
  have c7st : s7.status = "EM_ANDAMENTO" := by rw [b6st]; exact c6st
  have c7since : s7.stopped_since = some t0 := b6since
  have c7la : s7.last_stop_alert_at = some (t0 + 300) := b6la
  have c7stops : s7.total_stops = sm.total_stops + 1 := by rw [b6stops]; exact c6stops
  obtain ⟨b7st, b7stop, b7since, b7la, b7stops, b7al⟩ :=
    analyze_stop_ratelimited d (t0 + 420) t0 (t0 + 300) s7 p c7st hsp0 b6stop c7since
      (by rw [show (t0 + 420 - t0) / 60 = 7 by ring]; try norm_num) c7la
      (by rw [show (t0 + 420 - (t0 + 300)) / 60 = 120/60 by ring]; try norm_num)
  rw [feedPositions_cons]
  set s8 := (analyze_current_position d (t0 + 420) s7 (some p)).2 with hs8
  set g7 := (analyze_current_position d (t0 + 420) s7 (some p)).1.alerts_generated with hg7
  have c8st : s8.status = "EM_ANDAMENTO" := by rw [b7st]; exact c7st
  have c8since : s8.stopped_since = some t0 := b7since
  have c8la : s8.last_stop_alert_at = some (t0 + 300) := b7la
  have c8stops : s8.total_stops = sm.total_stops + 1 := by rw [b7stops]; exact c7stops
  obtain ⟨b8st, b8stop, b8since, b8la, b8stops, b8al⟩ :=
    analyze_stop_ratelimited d (t0 + 480) t0 (t0 + 300) s8 p c8st hsp0 b7stop c8since
      (by rw [show (t0 + 480 - t0) / 60 = 8 by ring]; try norm_num) c8la
      (by rw [show (t0 + 480 - (t0 + 300)) / 60 = 180/60 by ring]; try norm_num)
  rw [feedPositions_cons]
  set s9 := (analyze_current_position d (t0 + 480) s8 (some p)).2 with hs9
  set g8 := (analyze_current_position d (t0 + 480) s8 (some p)).1.alerts_generated with hg8
  have c9st : s9.status = "EM_ANDAMENTO" := by rw [b8st]; exact c8st
  have c9since : s9.stopped_since = some t0 := b8since
  have c9la : s9.last_stop_alert_at = some (t0 + 300) := b8la
  have c9stops : s9.total_stops = sm.total_stops + 1 := by rw [b8stops]; exact c8stops
  obtain ⟨b9st, b9stop, b9since, b9la, b9stops, b9al⟩ :=
    analyze_stop_ratelimited d (t0 + 540) t0 (t0 + 300) s9 p c9st hsp0 b8stop c9since
      (by rw [show (t0 + 540 - t0) / 60 = 9 by ring]; try norm_num) c9la
      (by rw [show (t0 + 540 - (t0 + 300)) / 60 = 240/60 by ring]; try norm_num)
  rw [feedPositions_cons]
  set s10 := (analyze_current_position d (t0 + 540) s9 (some p)).2 with hs10
  set g9 := (analyze_current_position d (t0 + 540) s9 (some p)).1.alerts_generated with hg9
  have c10st : s10.status = "EM_ANDAMENTO" := by rw [b9st]; exact c9st
  have c10since : s10.stopped_since = some t0 := b9since
  have c10la : s10.last_stop_alert_at = some (t0 + 300) := b9la
  have c10stops : s10.total_stops = sm.total_stops + 1 := by rw [b9stops]; exact c9stops
  obtain ⟨b10st, b10stop, b10since, b10la, b10stops, b10al⟩ :=
    analyze_stop_fire_repeat d (t0 + 600) t0 (t0 + 300) s10 p c10st hsp0 b9stop c10since
      (by rw [show (t0 + 600 - t0) / 60 = 10 by ring]; try norm_num) c10la
      (by rw [show (t0 + 600 - (t0 + 300)) / 60 = 5 by ring]; try norm_num)
  rw [feedPositions_cons]
  set s11 := (analyze_current_position d (t0 + 600) s10 (some p)).2 with hs11
  set g10 := (analyze_current_position d (t0 + 600) s10 (some p)).1.alerts_generated with hg10
  have c11st : s11.status = "EM_ANDAMENTO" := by rw [b10st]; exact c10st
  have c11since : s11.stopped_since = some t0 := b10since
  have c11la : s11.last_stop_alert_at = some (t0 + 600) := b10la
  have c11stops : s11.total_stops = sm.total_stops + 1 := by rw [b10stops]; exact c10stops
  obtain ⟨b11st, b11stop, b11since, b11la, b11stops, b11al⟩ :=
    analyze_stop_ratelimited d (t0 + 660) t0 (t0 + 600) s11 p c11st hsp0 b10stop c11since
      (by rw [show (t0 + 660 - t0) / 60 = 11 by ring]; try norm_num) c11la
      (by rw [show (t0 + 660 - (t0 + 600)) / 60 = 60/60 by ring]; try norm_num)
  rw [feedPositions_cons]
  set s12 := (analyze_current_position d (t0 + 660) s11 (some p)).2 with hs12
  set g11 := (analyze_current_position d (t0 + 660) s11 (some p)).1.alerts_generated with hg11
  have c12st : s12.status = "EM_ANDAMENTO" := by rw [b11st]; exact c11st
  have c12since : s12.stopped_since = some t0 := b11since
  have c12la : s12.last_stop_alert_at = some (t0 + 600) := b11la
  have c12stops : s12.total_stops = sm.total_stops + 1 := by rw [b11stops]; exact c11stops
  obtain ⟨b12st, b12stop, b12since, b12la, b12stops, b12al⟩ :=
    analyze_stop_ratelimited d (t0 + 720) t0 (t0 + 600) s12 p c12st hsp0 b11stop c12since
      (by rw [show (t0 + 720 - t0) / 60 = 12 by ring]; try norm_num) c12la
      (by rw [show (t0 + 720 - (t0 + 600)) / 60 = 120/60 by ring]; try norm_num)
  rw [feedPositions_cons]
  set s13 := (analyze_current_position d (t0 + 720) s12 (some p)).2 with hs13
  set g12 := (analyze_current_position d (t0 + 720) s12 (some p)).1.alerts_generated with hg12
  have c13st : s13.status = "EM_ANDAMENTO" := by rw [b12st]; exact c12st
  have c13since : s13.stopped_since = some t0 := b12since
  have c13la : s13.last_stop_alert_at = some (t0 + 600) := b12la
  have c13stops : s13.total_stops = sm.total_stops + 1 := by rw [b12stops]; exact c12stops
  obtain ⟨b13st, b13stop, b13since, b13la, b13stops, b13al⟩ :=
    analyze_stop_ratelimited d (t0 + 780) t0 (t0 + 600) s13 p c13st hsp0 b12stop c13since
      (by rw [show (t0 + 780 - t0) / 60 = 13 by ring]; try norm_num) c13la
      (by rw [show (t0 + 780 - (t0 + 600)) / 60 = 180/60 by ring]; try norm_num)
  rw [feedPositions_cons]
  set s14 := (analyze_current_position d (t0 + 780) s13 (some p)).2 with hs14
  set g13 := (analyze_current_position d (t0 + 780) s13 (some p)).1.alerts_generated with hg13
  have c14st : s14.status = "EM_ANDAMENTO" := by rw [b13st]; exact c13st
  have c14since : s14.stopped_since = some t0 := b13since
  have c14la : s14.last_stop_alert_at = some (t0 + 600) := b13la
  have c14stops : s14.total_stops = sm.total_stops + 1 := by rw [b13stops]; exact c13stops
  obtain ⟨b14st, b14stop, b14since, b14la, b14stops, b14al⟩ :=
    analyze_stop_ratelimited d (t0 + 840) t0 (t0 + 600) s14 p c14st hsp0 b13stop c14since
      (by rw [show (t0 + 840 - t0) / 60 = 14 by ring]; try norm_num) c14la
      (by rw [show (t0 + 840 - (t0 + 600)) / 60 = 240/60 by ring]; try norm_num)
  rw [feedPositions_cons]
  set s15 := (analyze_current_position d (t0 + 840) s14 (some p)).2 with hs15
  set g14 := (analyze_current_position d (t0 + 840) s14 (some p)).1.alerts_generated with hg14
  have c15st : s15.status = "EM_ANDAMENTO" := by rw [b14st]; exact c14st
  have c15since : s15.stopped_since = some t0 := b14since
  have c15la : s15.last_stop_alert_at = some (t0 + 600) := b14la
  have c15stops : s15.total_stops = sm.total_stops + 1 := by rw [b14stops]; exact c14stops
  obtain ⟨b15st, b15stop, b15since, b15la, b15stops, b15al⟩ :=
    analyze_stop_fire_repeat d (t0 + 900) t0 (t0 + 600) s15 p c15st hsp0 b14stop c15since
      (by rw [show (t0 + 900 - t0) / 60 = 15 by ring]; try norm_num) c15la
      (by rw [show (t0 + 900 - (t0 + 600)) / 60 = 5 by ring]; try norm_num)
  rw [feedPositions_cons]
  set s16 := (analyze_current_position d (t0 + 900) s15 (some p)).2 with hs16
  set g15 := (analyze_current_position d (t0 + 900) s15 (some p)).1.alerts_generated with hg15
  have c16st : s16.status = "EM_ANDAMENTO" := by rw [b15st]; exact c15st
  have c16since : s16.stopped_since = some t0 := b15since
  have c16la : s16.last_stop_alert_at = some (t0 + 900) := b15la
  have c16stops : s16.total_stops = sm.total_stops + 1 := by rw [b15stops]; exact c15stops
  obtain ⟨b16st, b16stop, b16since, b16la, b16stops, b16al⟩ :=
    analyze_stop_ratelimited d (t0 + 960) t0 (t0 + 900) s16 p c16st hsp0 b15stop c16since
      (by rw [show (t0 + 960 - t0) / 60 = 16 by ring]; try norm_num) c16la
      (by rw [show (t0 + 960 - (t0 + 900)) / 60 = 60/60 by ring]; try norm_num)
  rw [feedPositions_cons]
  set s17 := (analyze_current_position d (t0 + 960) s16 (some p)).2 with hs17
  set g16 := (analyze_current_position d (t0 + 960) s16 (some p)).1.alerts_generated with hg16
  have c17st : s17.status = "EM_ANDAMENTO" := by rw [b16st]; exact c16st
  have c17since : s17.stopped_since = some t0 := b16since
  have c17la : s17.last_stop_alert_at = some (t0 + 900) := b16la
  have c17stops : s17.total_stops = sm.total_stops + 1 := by rw [b16stops]; exact c16stops
  obtain ⟨b17st, b17stop, b17since, b17la, b17stops, b17al⟩ :=
    analyze_stop_ratelimited d (t0 + 1020) t0 (t0 + 900) s17 p c17st hsp0 b16stop c17since
      (by rw [show (t0 + 1020 - t0) / 60 = 17 by ring]; try norm_num) c17la
      (by rw [show (t0 + 1020 - (t0 + 900)) / 60 = 120/60 by ring]; try norm_num)
  rw [feedPositions_cons]
  set s18 := (analyze_current_position d (t0 + 1020) s17 (some p)).2 with hs18
  set g17 := (analyze_current_position d (t0 + 1020) s17 (some p)).1.alerts_generated with hg17
  have c18st : s18.status = "EM_ANDAMENTO" := by rw [b17st]; exact c17st
  have c18since : s18.stopped_since = some t0 := b17since
  have c18la : s18.last_stop_alert_at = some (t0 + 900) := b17la
  have c18stops : s18.total_stops = sm.total_stops + 1 := by rw [b17stops]; exact c17stops
  obtain ⟨b18st, b18stop, b18since, b18la, b18stops, b18al⟩ :=
    analyze_stop_ratelimited d (t0 + 1080) t0 (t0 + 900) s18 p c18st hsp0 b17stop c18since
      (by rw [show (t0 + 1080 - t0) / 60 = 18 by ring]; try norm_num) c18la
      (by rw [show (t0 + 1080 - (t0 + 900)) / 60 = 180/60 by ring]; try norm_num)
  rw [feedPositions_cons]
  set s19 := (analyze_current_position d (t0 + 1080) s18 (some p)).2 with hs19
  set g18 := (analyze_current_position d (t0 + 1080) s18 (some p)).1.alerts_generated with hg18
  have c19st : s19.status = "EM_ANDAMENTO" := by rw [b18st]; exact c18st
  have c19since : s19.stopped_since = some t0 := b18since
  have c19la : s19.last_stop_alert_at = some (t0 + 900) := b18la
  have c19stops : s19.total_stops = sm.total_stops + 1 := by rw [b18stops]; exact c18stops
  obtain ⟨b19st, b19stop, b19since, b19la, b19stops, b19al⟩ :=
    analyze_stop_ratelimited d (t0 + 1140) t0 (t0 + 900) s19 p c19st hsp0 b18stop c19since
      (by rw [show (t0 + 1140 - t0) / 60 = 19 by ring]; try norm_num) c19la
      (by rw [show (t0 + 1140 - (t0 + 900)) / 60 = 240/60 by ring]; try norm_num)
  rw [feedPositions_cons]
  set s20 := (analyze_current_position d (t0 + 1140) s19 (some p)).2 with hs20
  set g19 := (analyze_current_position d (t0 + 1140) s19 (some p)).1.alerts_generated with hg19
  have c20st : s20.status = "EM_ANDAMENTO" := by rw [b19st]; exact c19st
  have c20since : s20.stopped_since = some t0 := b19since
  have c20la : s20.last_stop_alert_at = some (t0 + 900) := b19la
  have c20stops : s20.total_stops = sm.total_stops + 1 := by rw [b19stops]; exact c19stops
  obtain ⟨b20st, b20stop, b20since, b20la, b20stops, b20al⟩ :=
    analyze_stop_fire_repeat d (t0 + 1200) t0 (t0 + 900) s20 p c20st hsp0 b19stop c20since
      (by rw [show (t0 + 1200 - t0) / 60 = 20 by ring]; try norm_num) c20la
      (by rw [show (t0 + 1200 - (t0 + 900)) / 60 = 5 by ring]; try norm_num)
  rw [feedPositions_cons]
  set s21 := (analyze_current_position d (t0 + 1200) s20 (some p)).2 with hs21
  set g20 := (analyze_current_position d (t0 + 1200) s20 (some p)).1.alerts_generated with hg20
  have c21st : s21.status = "EM_ANDAMENTO" := by rw [b20st]; exact c20st
  have c21since : s21.stopped_since = some t0 := b20since
  have c21la : s21.last_stop_alert_at = some (t0 + 1200) := b20la
  have c21stops : s21.total_stops = sm.total_stops + 1 := by rw [b20stops]; exact c20stops
  simp only [feedPositions_nil]
  refine ⟨c21stops, ?_⟩
  simp only [alertsOfType_map_append, alertsOfType_nil, List.map_nil,
    b0al, b1al, b2al, b3al, b4al, b5al, b6al, b7al, b8al, b9al, b10al, b11al, b12al, b13al, b14al, b15al, b16al, b17al, b18al, b19al, b20al,
    List.nil_append, List.append_nil, List.cons_append]

/-- Witness for C2 at a concrete input. -/
theorem C2_prolonged_stop_episode_witness :
    (feedPositions dZero (smBase, [])
        [((0 : ℚ), posStopped), (0 + 60, posStopped), (0 + 120, posStopped),
         (0 + 180, posStopped), (0 + 240, posStopped), (0 + 300, posStopped),
         (0 + 360, posStopped), (0 + 420, posStopped), (0 + 480, posStopped),
         (0 + 540, posStopped), (0 + 600, posStopped), (0 + 660, posStopped),
         (0 + 720, posStopped), (0 + 780, posStopped), (0 + 840, posStopped),
         (0 + 900, posStopped), (0 + 960, posStopped), (0 + 1020, posStopped),
         (0 + 1080, posStopped), (0 + 1140, posStopped),
         (0 + 1200, posStopped)]).1.total_stops = 1 ∧
    (alertsOfType (feedPositions dZero (smBase, [])
        [((0 : ℚ), posStopped), (0 + 60, posStopped), (0 + 120, posStopped),
         (0 + 180, posStopped), (0 + 240, posStopped), (0 + 300, posStopped),
         (0 + 360, posStopped), (0 + 420, posStopped), (0 + 480, posStopped),
         (0 + 540, posStopped), (0 + 600, posStopped), (0 + 660, posStopped),
         (0 + 720, posStopped), (0 + 780, posStopped), (0 + 840, posStopped),
         (0 + 900, posStopped), (0 + 960, posStopped), (0 + 1020, posStopped),
         (0 + 1080, posStopped), (0 + 1140, posStopped),
         (0 + 1200, posStopped)]).2
        "prolonged_stop").map (fun a => (a.timestamp, a.severity))
      = [((0 : ℚ) + 300, "warning"), (0 + 600, "warning"),
         (0 + 900, "warning"), (0 + 1200, "warning")] := by
  have h := C2_prolonged_stop_episode dZero 0 smBase posStopped rfl rfl rfl rfl rfl
  refine ⟨?_, h.2⟩
  rw [h.1]
  decide

end Monitoring

